import Mathlib

/-!
# Product CRUD service: entity, persistence port and service layer

A shallow embedding of `internal/app/product.go` and `internal/app/service.go`.

* Go pointers `*Product` are `Option Product` (`none` is the nil pointer), Go
  slices are `Option (List _)` (`none` is the nil slice), a Go `error` is
  `Option GoError` (`none` is the nil error).
* The wall clock and the random source are oracles threaded through `Runtime`.
* The persistence port is a record of state-transforming functions over an
  arbitrary store state; the `context.Context` argument every port method takes is
  part of that arbitrary behaviour and is not represented separately.
* A run-time panic (method call through a nil interface, nil pointer dereference)
  is the outcome `Outcome.panicked`.
-/

namespace App

/-! ## Values -/

/-- Go `float32`, represented by its IEEE-754 bit pattern. The service only ever copies
prices, so equality of prices below is equality of the copied bits. -/
structure float32 where
  bits : Nat
deriving DecidableEq, Repr

/-- The type `uuid.UUID` (`[16]byte`): the sixteen bytes, first byte first. -/
structure UUID where
  bytes : List Nat
deriving DecidableEq, Repr

/-- An instant of `time.Time` in UTC, in nanoseconds since the Unix epoch.
`time.Now().UTC()` drops the monotonic reading, so instants compare by wall clock. -/
abbrev Time := Int

/-- Go error values: `errors.New` builds an `errorString`, `fmt.Errorf` with one `%w`
verb builds a `wrapError` that remembers the wrapped error. -/
inductive GoError where
  | errorString (s : String)
  | wrapError (msg : String) (err : GoError)
deriving DecidableEq, Repr

/-- The method `Error()`. -/
def GoError.Error : GoError → String
  | .errorString s => s
  | .wrapError msg _ => msg

/-- The function `errors.Unwrap`. -/
def GoError.Unwrap : GoError → Option GoError
  | .errorString _ => none
  | .wrapError _ err => some err

/-- The call `fmt.Errorf(text + "%w", err)`: the message is `text` followed by
`err.Error()`, and the result unwraps to `err`. -/
def fmtErrorf (text : String) (err : GoError) : GoError :=
  .wrapError (text ++ err.Error) err

/-- How a Go call ends: it returns a value, or it panics. -/
inductive Outcome (α : Type) where
  | returned (a : α)
  | panicked

/-! ## Clock and random source -/

/-- The ambient runtime a call reads from: `wallClock k` is what the `k`-th evaluation
of `time.Now().UTC()` yields, `entropy k i` is the `i`-th random byte of the `k`-th
`uuid.New()`. No relation between successive clock readings is assumed. -/
structure Runtime where
  wallClock : Nat → Time
  clockReads : Nat
  entropy : Nat → Nat → Nat
  uuidDraws : Nat

/-- The expression `time.Now().UTC()`. -/
def Runtime.timeNowUTC (rt : Runtime) : Time × Runtime :=
  (rt.wallClock rt.clockReads, { rt with clockReads := rt.clockReads + 1 })

/-- The call `uuid.New()` of github.com/google/uuid: sixteen random bytes, then the version
nibble of byte 6 is set to 4 and the two variant bits of byte 8 to binary 10. -/
def Runtime.uuidNew (rt : Runtime) : UUID × Runtime :=
  let raw := (List.range 16).map (fun i => rt.entropy rt.uuidDraws i % 256)
  let b6 := (raw.getD 6 0 &&& 0x0f) ||| 0x40
  let b8 := (raw.getD 8 0 &&& 0x3f) ||| 0x80
  (⟨(raw.set 6 b6).set 8 b8⟩, { rt with uuidDraws := rt.uuidDraws + 1 })

/-! ## product.go -/

structure Product where
  ID : UUID
  Name : String
  Description : String
  Price : float32
  CreatedAt : Time
  UpdatedAt : Time
deriving DecidableEq, Repr

/-- The constructor `NewProduct(name, description, price)`: one clock reading, used for
both timestamps, and a fresh identifier. -/
def NewProduct (rt : Runtime) (name description : String) (price : float32) :
    Product × Runtime :=
  let (now, rt1) := rt.timeNowUTC
  let (id, rt2) := rt1.uuidNew
  ({ ID := id
     Name := name
     Description := description
     Price := price
     CreatedAt := now
     UpdatedAt := now }, rt2)

/-- The method `(p *Product) Update(name, description, price)` on a non-nil receiver:
the product after the call, and the runtime after its clock reading. -/
def Product.Update (p : Product) (rt : Runtime) (name description : String)
    (price : float32) : Product × Runtime :=
  let p1 := { p with Name := name }
  let p2 := { p1 with Description := description }
  let p3 := { p2 with Price := price }
  let (now, rt1) := rt.timeNowUTC
  ({ p3 with UpdatedAt := now }, rt1)

/-! ## service.go -/

/-- The interface `repository`, over a store whose state has type `σ`. Each method maps
the store state before the call to its results and the store state after. A product is
handed over by value: the port reads the product it is given and does not write through
the pointer (as `postgresql/repository.go` does). -/
structure repository (σ : Type) where
  CreateProduct : σ → Product → Option GoError × σ
  UpdateProduct : σ → Product → Option GoError × σ
  DeleteProduct : σ → UUID → Option GoError × σ
  GetProduct : σ → UUID → (Option Product × Option GoError) × σ
  GetProducts : σ → Int → Int → (Option (List (Option Product)) × Option GoError) × σ

/-- The struct `Service`; the zero value `Service{}` holds the nil interface. -/
structure Service (σ : Type) where
  repository : Option (repository σ)

structure CreateProductDTO where
  Name : String
  Description : String
  Price : float32
deriving DecidableEq, Repr

structure UpdateProductDTO where
  ID : UUID
  Name : String
  Description : String
  Price : float32
deriving DecidableEq, Repr

/-- What a service call runs against: the runtime and the store behind the port. -/
structure World (σ : Type) where
  rt : Runtime
  store : σ

/-- The constructor `NewService(r)`. -/
def NewService {σ : Type} (r : Option (repository σ)) : Service σ × Option GoError :=
  match r with
  | none => (⟨none⟩, some (.errorString "repository is nil"))
  | some r => (⟨some r⟩, none)

/-- The method `Service.CreateProduct(ctx, dto)`. -/
def Service.CreateProduct {σ : Type} (s : Service σ) (w : World σ) (dto : CreateProductDTO) :
    Outcome ((Option Product × Option GoError) × World σ) :=
  let (p, rt1) := NewProduct w.rt dto.Name dto.Description dto.Price
  match s.repository with
  | none => .panicked
  | some r =>
    let (err, st1) := r.CreateProduct w.store p
    match err with
    | some err => .returned ((none, some (fmtErrorf "failed to create product: " err)), ⟨rt1, st1⟩)
    | none => .returned ((some p, none), ⟨rt1, st1⟩)

/-- The method `Service.UpdateProduct(ctx, dto)`. A port that answers the fetch with a nil
product and a nil error makes `p.Update` dereference nil. -/
def Service.UpdateProduct {σ : Type} (s : Service σ) (w : World σ) (dto : UpdateProductDTO) :
    Outcome ((Option Product × Option GoError) × World σ) :=
  match s.repository with
  | none => .panicked
  | some r =>
    let (res, st1) := r.GetProduct w.store dto.ID
    match res with
    | (_, some err) =>
      .returned ((none, some (fmtErrorf "failed to get product: " err)), ⟨w.rt, st1⟩)
    | (none, none) => .panicked
    | (some p, none) =>
      let (p1, rt1) := p.Update w.rt dto.Name dto.Description dto.Price
      let (err, st2) := r.UpdateProduct st1 p1
      match err with
      | some err =>
        .returned ((none, some (fmtErrorf "failed to update product: " err)), ⟨rt1, st2⟩)
      | none => .returned ((some p1, none), ⟨rt1, st2⟩)

/-- The method `Service.DeleteProduct(ctx, productID)`. -/
def Service.DeleteProduct {σ : Type} (s : Service σ) (w : World σ) (productID : UUID) :
    Outcome (Option GoError × World σ) :=
  match s.repository with
  | none => .panicked
  | some r =>
    let (err, st1) := r.DeleteProduct w.store productID
    match err with
    | some err => .returned (some (fmtErrorf "failed to delete product: " err), ⟨w.rt, st1⟩)
    | none => .returned (none, ⟨w.rt, st1⟩)

/-- The method `Service.GetProduct(ctx, productID)`. -/
def Service.GetProduct {σ : Type} (s : Service σ) (w : World σ) (productID : UUID) :
    Outcome ((Option Product × Option GoError) × World σ) :=
  match s.repository with
  | none => .panicked
  | some r =>
    let (res, st1) := r.GetProduct w.store productID
    match res with
    | (_, some err) =>
      .returned ((none, some (fmtErrorf "failed to get product: " err)), ⟨w.rt, st1⟩)
    | (p, none) => .returned ((p, none), ⟨w.rt, st1⟩)

/-- The method `Service.GetProducts(ctx, limit, offset)`. -/
def Service.GetProducts {σ : Type} (s : Service σ) (w : World σ) (limit offset : Int) :
    Outcome ((Option (List (Option Product)) × Option GoError) × World σ) :=
  match s.repository with
  | none => .panicked
  | some r =>
    let (res, st1) := r.GetProducts w.store limit offset
    match res with
    | (_, some err) =>
      .returned ((none, some (fmtErrorf "failed to get products: " err)), ⟨w.rt, st1⟩)
    | (products, none) => .returned ((products, none), ⟨w.rt, st1⟩)

/-! ## Observing the port calls

A recording port behaves as the port it wraps and appends every call it receives, with
its arguments, to a log kept next to the store. -/

inductive PortCall where
  | CreateProduct (p : Product)
  | UpdateProduct (p : Product)
  | DeleteProduct (productID : UUID)
  | GetProduct (productID : UUID)
  | GetProducts (limit offset : Int)
deriving DecidableEq, Repr

def repository.recording {σ : Type} (r : repository σ) : repository (σ × List PortCall) where
  CreateProduct st p :=
    ((r.CreateProduct st.1 p).1, ((r.CreateProduct st.1 p).2, st.2 ++ [.CreateProduct p]))
  UpdateProduct st p :=
    ((r.UpdateProduct st.1 p).1, ((r.UpdateProduct st.1 p).2, st.2 ++ [.UpdateProduct p]))
  DeleteProduct st id :=
    ((r.DeleteProduct st.1 id).1, ((r.DeleteProduct st.1 id).2, st.2 ++ [.DeleteProduct id]))
  GetProduct st id :=
    ((r.GetProduct st.1 id).1, ((r.GetProduct st.1 id).2, st.2 ++ [.GetProduct id]))
  GetProducts st limit offset :=
    ((r.GetProducts st.1 limit offset).1,
      ((r.GetProducts st.1 limit offset).2, st.2 ++ [.GetProducts limit offset]))

/-! ## The five operations and the errors they return -/

inductive Operation where
  | CreateProduct
  | UpdateProduct
  | DeleteProduct
  | GetProduct
  | GetProducts
deriving DecidableEq, Repr

def allOperations : List Operation :=
  [.CreateProduct, .UpdateProduct, .DeleteProduct, .GetProduct, .GetProducts]

/-- A call of one of the five methods of `Service`, with its arguments. -/
inductive ServiceCall where
  | CreateProduct (dto : CreateProductDTO)
  | UpdateProduct (dto : UpdateProductDTO)
  | DeleteProduct (productID : UUID)
  | GetProduct (productID : UUID)
  | GetProducts (limit offset : Int)
deriving DecidableEq, Repr

def ServiceCall.operation : ServiceCall → Operation
  | .CreateProduct _ => .CreateProduct
  | .UpdateProduct _ => .UpdateProduct
  | .DeleteProduct _ => .DeleteProduct
  | .GetProduct _ => .GetProduct
  | .GetProducts _ _ => .GetProducts

/-- The error component of what a call returned; `none` for a nil error and for a panic. -/
def Outcome.errorOf {α β : Type} (err : α → Option GoError) :
    Outcome (α × β) → Option GoError
  | .returned (a, _) => err a
  | .panicked => none

/-- The error the service hands back to the caller of `c`. -/
def Service.returnedError {σ : Type} (s : Service σ) (w : World σ) :
    ServiceCall → Option GoError
  | .CreateProduct dto => (s.CreateProduct w dto).errorOf Prod.snd
  | .UpdateProduct dto => (s.UpdateProduct w dto).errorOf Prod.snd
  | .DeleteProduct productID => (s.DeleteProduct w productID).errorOf id
  | .GetProduct productID => (s.GetProduct w productID).errorOf Prod.snd
  | .GetProducts limit offset => (s.GetProducts w limit offset).errorOf Prod.snd

/-- The texts that can stand in front of the cause in an error of each operation, as
written in the `fmt.Errorf` calls of `service.go`. -/
def Operation.contexts : Operation → List String
  | .CreateProduct => ["failed to create product: "]
  | .UpdateProduct => ["failed to get product: ", "failed to update product: "]
  | .DeleteProduct => ["failed to delete product: "]
  | .GetProduct => ["failed to get product: "]
  | .GetProducts => ["failed to get products: "]

/-! ## Example ports and inputs -/

/-- A port on which every operation fails with `e`. -/
def brokenPort (e : GoError) : repository Unit where
  CreateProduct st _ := (some e, st)
  UpdateProduct st _ := (some e, st)
  DeleteProduct st _ := (some e, st)
  GetProduct st _ := ((none, some e), st)
  GetProducts st _ _ := ((none, some e), st)

/-- An in-memory port over the list of stored products, newest first. Reads always work;
writes fail with `writeFailure` when one is given. -/
def memoryPort (writeFailure : Option GoError) : repository (List Product) where
  CreateProduct st p :=
    match writeFailure with
    | some e => (some e, st)
    | none => (none, p :: st)
  UpdateProduct st p :=
    match writeFailure with
    | some e => (some e, st)
    | none => (none, st.map (fun q => if q.ID = p.ID then p else q))
  DeleteProduct st id :=
    match writeFailure with
    | some e => (some e, st)
    | none => (none, st.filter (fun q => q.ID ≠ id))
  GetProduct st id :=
    match st.find? (fun q => q.ID = id) with
    | some p => ((some p, none), st)
    | none => ((none, some (.errorString "no rows in result set")), st)
  GetProducts st limit offset :=
    ((some (((st.drop offset.toNat).take limit.toNat).map some), none), st)

def sampleRuntime : Runtime :=
  ⟨fun k => 1000 + k, 0, fun k i => 16 * k + i, 0⟩

def sampleID : UUID :=
  ⟨[17, 34, 51, 68, 85, 102, 71, 119, 136, 153, 170, 187, 204, 221, 238, 255]⟩

/-- A stored product: price 100.0, created and last updated at instant 500. -/
def sampleProduct : Product :=
  ⟨sampleID, "Test Product", "Test Description", ⟨0x42c80000⟩, 500, 500⟩

def sampleCreateDTO : CreateProductDTO :=
  ⟨"Test Product", "Test Description", ⟨0x42c80000⟩⟩

/-- An update request for `sampleID` with price 200.0. -/
def sampleUpdateDTO : UpdateProductDTO :=
  ⟨sampleID, "New Product Name", "New Product Description", ⟨0x43480000⟩⟩

def repoError : GoError := .errorString "repo error"

/-- A runtime whose wall clock reads 400, earlier than the `created_at` of `sampleProduct`:
the clock was set back, or the record was written by a host whose clock runs ahead. -/
def laggingRuntime : Runtime :=
  ⟨fun _ => 400, 0, fun _ _ => 0, 0⟩

end App

namespace App

/-! ## float32 values that are not numbers -/

/-- Whether a `float32` is neither NaN nor an infinity: its exponent bits are not all ones. -/
def float32.isFinite (x : float32) : Bool :=
  (x.bits / 2 ^ 23) % 256 != 255

/-- The text `strconv.FormatFloat` gives for a `float32` that is not finite. -/
def float32.nonFiniteText (x : float32) : String :=
  if x.bits % 2 ^ 23 ≠ 0 then "NaN"
  else if (x.bits / 2 ^ 31) % 2 = 1 then "-Inf"
  else "+Inf"

end App

/-!
# HTTP adapter

A shallow embedding of `internal/infra/http/router.go`.

* A handler maps the `http.ResponseWriter` it is given, the state behind the service and
  the request to the writer and the state after it returns, or panics. Only the status
  code and the body of the response are kept; headers are not represented, and writes to
  the response are taken to succeed.
* `encoding/json` and `uuid.Parse` are not code of the repository: they are the parameters
  collected in `Libraries`, together with what is known of them. `strconv.Atoi` is written
  out.
* The `service` interface is a record of state-transforming functions that may panic;
  `ofService` puts `app.Service` behind it.
-/

namespace Http

open App

/-! ## net/http and strconv -/

/-- What a handler reads from `*http.Request`: the body, the path wildcards matched by the
route (or set with `SetPathValue`) and the pairs of the parsed URL query, in order. -/
structure Request where
  body : String
  pathValues : List (String × String)
  query : List (String × String)
deriving DecidableEq, Repr

/-- The method `req.PathValue(name)`: the empty string when the wildcard is absent. -/
def Request.PathValue (req : Request) (name : String) : String :=
  match req.pathValues.find? (fun kv => kv.1 = name) with
  | some kv => kv.2
  | none => ""

/-- The expression `req.URL.Query().Get(key)`: the first value of `key`, the empty string
when there is none. -/
def Request.queryGet (req : Request) (key : String) : String :=
  match req.query.find? (fun kv => kv.1 = key) with
  | some kv => kv.2
  | none => ""

/-- The state of an `http.ResponseWriter`: the status code once the header is written,
and the body written so far. -/
structure ResponseWriter where
  status : Option Nat
  body : String
deriving DecidableEq, Repr

/-- A writer nothing has been written to, as `httptest.NewRecorder()` gives. -/
def newRecorder : ResponseWriter :=
  ⟨none, ""⟩

/-- The method `w.WriteHeader(code)`: only the first call sets the status. -/
def ResponseWriter.WriteHeader (w : ResponseWriter) (code : Nat) : ResponseWriter :=
  match w.status with
  | some _ => w
  | none => { w with status := some code }

/-- The method `w.Write(data)`: writes the header with status 200 first when no header has
been written. -/
def ResponseWriter.Write (w : ResponseWriter) (data : String) : ResponseWriter :=
  let w1 := w.WriteHeader 200
  { w1 with body := w1.body ++ data }

/-- The function `http.Error(w, error, code)`: `WriteHeader(code)`, then the message and a
newline. -/
def httpError (w : ResponseWriter) (error : String) (code : Nat) : ResponseWriter :=
  (w.WriteHeader code).Write (error ++ "\n")

def StatusOK : Nat := 200

def StatusCreated : Nat := 201

def StatusNoContent : Nat := 204

def StatusBadRequest : Nat := 400

def StatusInternalServerError : Nat := 500

/-- The function `strconv.Atoi` where `int` has 64 bits: an optional sign, then one or more
decimal digits and nothing else, denoting a value that fits `int`; `none` stands for a
non-nil error. -/
def strconvAtoi (s : String) : Option Int :=
  let (neg, digits) : Bool × List Char :=
    match s.data with
    | '-' :: rest => (true, rest)
    | '+' :: rest => (false, rest)
    | cs => (false, cs)
  if digits.isEmpty || !digits.all Char.isDigit then none
  else
    let n : Int := digits.foldl (fun acc c => acc * 10 + ((c.toNat - 48 : Nat) : Int)) 0
    let v : Int := if neg then -n else n
    if -(2 ^ 63) ≤ v ∧ v < 2 ^ 63 then some v else none

/-! ## router.go -/

def getProductsDefaultLimit : Int := 20

def getProductsDefaultOffset : Int := 0

/-- The interface `service`, over a state of type `ω`: each method maps the state before
the call to what it returns and the state after, or panics. -/
structure service (ω : Type) where
  CreateProduct : ω → CreateProductDTO → Outcome ((Option Product × Option GoError) × ω)
  UpdateProduct : ω → UpdateProductDTO → Outcome ((Option Product × Option GoError) × ω)
  DeleteProduct : ω → UUID → Outcome (Option GoError × ω)
  GetProduct : ω → UUID → Outcome ((Option Product × Option GoError) × ω)
  GetProducts : ω → Int → Int →
    Outcome ((Option (List (Option Product)) × Option GoError) × ω)

/-- The struct `Router`; the zero value `Router{}` holds the nil interface. -/
structure Router (ω : Type) where
  service : Option (service ω)

/-- The constructor `NewRouter(s)`. -/
def NewRouter {ω : Type} (s : Option (service ω)) : Router ω × Option GoError :=
  match s with
  | none => (⟨none⟩, some (.errorString "service cannot be nil"))
  | some s => (⟨some s⟩, none)

structure productRequestBody where
  Name : String
  Description : String
  Price : float32
deriving DecidableEq, Repr

structure productResponse where
  ID : UUID
  Name : String
  Description : String
  Price : float32
  CreatedAt : Time
  UpdatedAt : Time
deriving DecidableEq, Repr

structure productsResponse where
  Products : Option (List productResponse)
deriving DecidableEq, Repr

/-- The function `newProductResponse(p)` on a non-nil `p`. -/
def newProductResponse (p : Product) : productResponse :=
  { ID := p.ID
    Name := p.Name
    Description := p.Description
    Price := p.Price
    CreatedAt := p.CreatedAt
    UpdatedAt := p.UpdatedAt }

/-! ## encoding/json and uuid.Parse -/

/-- The error of `encoding/json` for a float that is NaN or an infinity
(`UnsupportedValueError`). -/
def unsupportedValue (x : float32) : GoError :=
  .errorString ("json: unsupported value: " ++ x.nonFiniteText)

/-- The library functions the handlers call.
* `jsonDecode body` is `json.NewDecoder(req.Body).Decode(&body)` into a
  `productRequestBody`; `none` stands for a non-nil error.
* `uuidParse s` is `uuid.Parse(s)`; `none` stands for a non-nil error. `uuid.Parse` rejects
  every string whose length in bytes is not 32, 36, 38 or 45.
* `jsonMarshal r` and `jsonMarshalAll rs` give the bytes `json.NewEncoder(w).Encode` writes
  (the JSON text and a newline) for a `productResponse` and for a `productsResponse` whose
  prices are finite, or the encoder's error. -/
structure Libraries where
  jsonDecode : String → Option productRequestBody
  uuidParse : String → Option UUID
  jsonMarshal : productResponse → Except GoError String
  jsonMarshalAll : productsResponse → Except GoError String
  uuidParse_length : ∀ s : String, s.utf8ByteSize ∉ [32, 36, 38, 45] → uuidParse s = none

/-- The result of marshalling a `productResponse`: `encoding/json` refuses a price that is
NaN or an infinity. -/
def Libraries.marshalProduct (libs : Libraries) (r : productResponse) :
    Except GoError String :=
  if r.Price.isFinite then libs.jsonMarshal r else .error (unsupportedValue r.Price)

/-- The result of marshalling a `productsResponse`: `encoding/json` refuses the first price
that is NaN or an infinity. -/
def Libraries.marshalProducts (libs : Libraries) (res : productsResponse) :
    Except GoError String :=
  match (res.Products.getD []).find? (fun r => !r.Price.isFinite) with
  | some r => .error (unsupportedValue r.Price)
  | none => libs.jsonMarshalAll res

/-- The call `json.NewEncoder(w).Encode(v)`, given the result of marshalling `v`: the bytes
are written to `w`, or nothing is written and the error is returned. -/
def encodeTo (w : ResponseWriter) (marshalled : Except GoError String) :
    ResponseWriter × Option GoError :=
  match marshalled with
  | .ok text => (w.Write text, none)
  | .error err => (w, some err)

/-! ## The handlers -/

/-- The method `Router.createProductHandler(w, req)`. -/
def Router.createProductHandler {ω : Type} (r : Router ω) (libs : Libraries)
    (w : ResponseWriter) (st : ω) (req : Request) : Outcome (ResponseWriter × ω) :=
  match libs.jsonDecode req.body with
  | none => .returned (httpError w "invalid request body" StatusBadRequest, st)
  | some body =>
    let dto : CreateProductDTO :=
      { Name := body.Name, Description := body.Description, Price := body.Price }
    match r.service with
    | none => .panicked
    | some svc =>
      match svc.CreateProduct st dto with
      | .panicked => .panicked
      | .returned ((_, some _), st1) =>
        .returned (httpError w "an error occurred" StatusInternalServerError, st1)
      | .returned ((none, none), _) => .panicked
      | .returned ((some p, none), st1) =>
        let w1 := w.WriteHeader StatusCreated
        let productRes := newProductResponse p
        match encodeTo w1 (libs.marshalProduct productRes) with
        | (w2, some _) =>
          .returned (httpError w2 "an error occurred" StatusInternalServerError, st1)
        | (w2, none) => .returned (w2, st1)

/-- The method `Router.updateProductHandler(w, req)`. -/
def Router.updateProductHandler {ω : Type} (r : Router ω) (libs : Libraries)
    (w : ResponseWriter) (st : ω) (req : Request) : Outcome (ResponseWriter × ω) :=
  match libs.jsonDecode req.body with
  | none => .returned (httpError w "invalid request body" StatusBadRequest, st)
  | some body =>
    let productIDStr := req.PathValue "product_id"
    match libs.uuidParse productIDStr with
    | none => .returned (httpError w "invalid product id" StatusBadRequest, st)
    | some productID =>
      let dto : UpdateProductDTO :=
        { ID := productID, Name := body.Name, Description := body.Description,
          Price := body.Price }
      match r.service with
      | none => .panicked
      | some svc =>
        match svc.UpdateProduct st dto with
        | .panicked => .panicked
        | .returned ((_, some _), st1) =>
          .returned (httpError w "an error occurred" StatusInternalServerError, st1)
        | .returned ((none, none), _) => .panicked
        | .returned ((some p, none), st1) =>
          let w1 := w.WriteHeader StatusOK
          let productRes := newProductResponse p
          match encodeTo w1 (libs.marshalProduct productRes) with
          | (w2, some _) =>
            .returned (httpError w2 "an error occurred" StatusInternalServerError, st1)
          | (w2, none) => .returned (w2, st1)

/-- The method `Router.deleteProductHandler(w, req)`. -/
def Router.deleteProductHandler {ω : Type} (r : Router ω) (libs : Libraries)
    (w : ResponseWriter) (st : ω) (req : Request) : Outcome (ResponseWriter × ω) :=
  let productIDStr := req.PathValue "product_id"
  match libs.uuidParse productIDStr with
  | none => .returned (httpError w "invalid product id" StatusBadRequest, st)
  | some productID =>
    match r.service with
    | none => .panicked
    | some svc =>
      match svc.DeleteProduct st productID with
      | .panicked => .panicked
      | .returned (some _, st1) =>
        .returned (httpError w "an error occurred" StatusInternalServerError, st1)
      | .returned (none, st1) => .returned (w.WriteHeader StatusNoContent, st1)

/-- The method `Router.getProductHandler(w, req)`. When the encoder fails, this handler
answers with the encoder's own message. -/
def Router.getProductHandler {ω : Type} (r : Router ω) (libs : Libraries)
    (w : ResponseWriter) (st : ω) (req : Request) : Outcome (ResponseWriter × ω) :=
  let productIDStr := req.PathValue "product_id"
  match libs.uuidParse productIDStr with
  | none => .returned (httpError w "invalid product id" StatusBadRequest, st)
  | some productID =>
    match r.service with
    | none => .panicked
    | some svc =>
      match svc.GetProduct st productID with
      | .panicked => .panicked
      | .returned ((_, some _), st1) =>
        .returned (httpError w "an error occurred" StatusInternalServerError, st1)
      | .returned ((none, none), _) => .panicked
      | .returned ((some product, none), st1) =>
        let w1 := w.WriteHeader StatusOK
        let productRes := newProductResponse product
        match encodeTo w1 (libs.marshalProduct productRes) with
        | (w2, some err) =>
          .returned (httpError w2 err.Error StatusInternalServerError, st1)
        | (w2, none) => .returned (w2, st1)

/-- The loop of `getProductsHandler` that fills `res.Products`: each product is converted
and appended, in order; a nil element makes `newProductResponse` dereference nil. -/
def appendProductResponses :
    List (Option Product) → productsResponse → Outcome productsResponse
  | [], res => .returned res
  | none :: _, _ => .panicked
  | some p :: rest, res =>
    let productRes := newProductResponse p
    appendProductResponses rest { Products := some (res.Products.getD [] ++ [productRes]) }

/-- The method `Router.getProductsHandler(w, req)`. -/
def Router.getProductsHandler {ω : Type} (r : Router ω) (libs : Libraries)
    (w : ResponseWriter) (st : ω) (req : Request) : Outcome (ResponseWriter × ω) :=
  let limit : Int :=
    match strconvAtoi (req.queryGet "limit") with
    | some n => n
    | none => getProductsDefaultLimit
  let offset : Int :=
    match strconvAtoi (req.queryGet "offset") with
    | some n => n
    | none => getProductsDefaultOffset
  match r.service with
  | none => .panicked
  | some svc =>
    match svc.GetProducts st limit offset with
    | .panicked => .panicked
    | .returned ((_, some _), st1) =>
      .returned (httpError w "an error occurred" StatusInternalServerError, st1)
    | .returned ((products, none), st1) =>
      match appendProductResponses (products.getD []) { Products := none } with
      | .panicked => .panicked
      | .returned res =>
        let w1 := w.WriteHeader StatusOK
        match encodeTo w1 (libs.marshalProducts res) with
        | (w2, some _) =>
          .returned (httpError w2 "an error occurred" StatusInternalServerError, st1)
        | (w2, none) => .returned (w2, st1)

/-- The five routes `RegisterRoutes` binds. -/
inductive Endpoint where
  | createProduct
  | updateProduct
  | deleteProduct
  | getProduct
  | getProducts
deriving DecidableEq, Repr

/-- The handler `RegisterRoutes` binds to each route. -/
def Router.handle {ω : Type} (r : Router ω) (libs : Libraries) (ep : Endpoint)
    (w : ResponseWriter) (st : ω) (req : Request) : Outcome (ResponseWriter × ω) :=
  match ep with
  | .createProduct => r.createProductHandler libs w st req
  | .updateProduct => r.updateProductHandler libs w st req
  | .deleteProduct => r.deleteProductHandler libs w st req
  | .getProduct => r.getProductHandler libs w st req
  | .getProducts => r.getProductsHandler libs w st req

/-! ## The service behind the router -/

/-- The value `app.Service` used as a `service`, as `cmd/main.go` wires it. -/
def ofService {σ : Type} (s : Service σ) : service (World σ) where
  CreateProduct := s.CreateProduct
  UpdateProduct := s.UpdateProduct
  DeleteProduct := s.DeleteProduct
  GetProduct := s.GetProduct
  GetProducts := s.GetProducts

/-- A recording service behaves as the service it wraps and appends every call it
receives, with its arguments, to a log kept next to the state. -/
def service.recording {ω : Type} (svc : service ω) : service (ω × List ServiceCall) where
  CreateProduct st dto :=
    match svc.CreateProduct st.1 dto with
    | .returned (res, st1) => .returned (res, (st1, st.2 ++ [.CreateProduct dto]))
    | .panicked => .panicked
  UpdateProduct st dto :=
    match svc.UpdateProduct st.1 dto with
    | .returned (res, st1) => .returned (res, (st1, st.2 ++ [.UpdateProduct dto]))
    | .panicked => .panicked
  DeleteProduct st id :=
    match svc.DeleteProduct st.1 id with
    | .returned (res, st1) => .returned (res, (st1, st.2 ++ [.DeleteProduct id]))
    | .panicked => .panicked
  GetProduct st id :=
    match svc.GetProduct st.1 id with
    | .returned (res, st1) => .returned (res, (st1, st.2 ++ [.GetProduct id]))
    | .panicked => .panicked
  GetProducts st limit offset :=
    match svc.GetProducts st.1 limit offset with
    | .returned (res, st1) => .returned (res, (st1, st.2 ++ [.GetProducts limit offset]))
    | .panicked => .panicked

/-! ## Example libraries, services and requests -/

/-- A stand-in for the text `encoding/json` writes for a `productResponse`. -/
def renderProduct (r : productResponse) : String :=
  "\x7b\"id\":" ++ toString r.ID.bytes ++ ",\"name\":\"" ++ r.Name
    ++ "\",\"description\":\"" ++ r.Description ++ "\",\"price\":" ++ toString r.Price.bits
    ++ ",\"created_at\":" ++ toString r.CreatedAt ++ ",\"updated_at\":"
    ++ toString r.UpdatedAt ++ "\x7d"

/-- The body of the requests in `router_test.go`. -/
def sampleBody : String :=
  "\x7b\"name\":\"Test Product\",\"description\":\"Test Description\",\"price\":100.0\x7d"

def sampleIDText : String := "11223344-5566-4777-8899-aabbccddeeff"

/-- Stand-ins for the libraries: the decoder knows `sampleBody`, the UUID parser knows
`sampleIDText`, and both reject everything else, among it the body `\x7b` and the empty
identifier of `router_test.go`. -/
def sampleLibraries : Libraries where
  jsonDecode s :=
    if s = sampleBody then some ⟨"Test Product", "Test Description", ⟨0x42c80000⟩⟩ else none
  uuidParse s := if s = sampleIDText then some sampleID else none
  jsonMarshal r := .ok (renderProduct r ++ "\n")
  jsonMarshalAll res :=
    .ok ("\x7b\"products\":["
      ++ ",".intercalate ((res.Products.getD []).map renderProduct) ++ "]\x7d\n")
  uuidParse_length := by
    intro s hs
    by_cases h : s = sampleIDText
    · subst h
      exact absurd hs (by decide)
    · simp [h]

/-- A service that answers every call with the same product, listing and error, as the
mocks of `router_test.go` do. -/
def stubService (p : Option Product) (ps : Option (List (Option Product)))
    (err : Option GoError) : service Unit where
  CreateProduct st _ := .returned ((p, err), st)
  UpdateProduct st _ := .returned ((p, err), st)
  DeleteProduct st _ := .returned (err, st)
  GetProduct st _ := .returned ((p, err), st)
  GetProducts st _ _ := .returned ((ps, err), st)

def serviceError : GoError := .errorString "service error"

/-- A POST or PUT request carrying `sampleBody`, with `sampleIDText` as its path id. -/
def sampleRequest : Request :=
  ⟨sampleBody, [("product_id", sampleIDText)], []⟩

/-- A PUT request whose body is the single byte `\x7b` and which has no path id. -/
def malformedRequest : Request :=
  ⟨"\x7b", [], []⟩

/-- The request `GET /api/v1/products?limit=&offset=`. -/
def blankListRequest : Request :=
  ⟨"", [], [("limit", ""), ("offset", "")]⟩

/-- The request `GET /api/v1/products?limit=20&offset=0`. -/
def explicitListRequest : Request :=
  ⟨"", [], [("limit", "20"), ("offset", "0")]⟩

/-- The request `GET /api/v1/products`. -/
def bareListRequest : Request :=
  ⟨"", [], []⟩

/-- A product whose price is NaN (bit pattern 0x7fc00000), as a store with a floating point
price column can hold. -/
def nanProduct : Product :=
  { sampleProduct with Price := ⟨0x7fc00000⟩ }

end Http


/-! # Theorems -/

namespace App

/-! ## Service.UpdateProduct and Service.CreateProduct -/

/-- C1: when the port's GetProduct fails with `e` for `dto.ID`, Service.UpdateProduct
returns a nil Product and an error whose message is "failed to get product: " followed by
`e`'s message and which unwraps to `e`; the only port call made is that GetProduct, so the
port's UpdateProduct is never called. -/
theorem updateProduct_fetch_failure {σ : Type} (r : repository σ) (rt : Runtime)
    (st st1 : σ) (log : List PortCall) (dto : UpdateProductDTO) (p : Option Product)
    (e : GoError) (h : r.GetProduct st dto.ID = ((p, some e), st1)) :
    ∃ err : GoError,
      Service.UpdateProduct ⟨some r⟩ ⟨rt, st⟩ dto = .returned ((none, some err), ⟨rt, st1⟩) ∧
      err.Error = "failed to get product: " ++ e.Error ∧ err.Unwrap = some e ∧
      Service.UpdateProduct ⟨some r.recording⟩ ⟨rt, (st, log)⟩ dto
        = .returned ((none, some err), ⟨rt, (st1, log ++ [.GetProduct dto.ID])⟩) ∧
      ∀ q, PortCall.UpdateProduct q ∉ [PortCall.GetProduct dto.ID] := by
  refine ⟨fmtErrorf "failed to get product: " e, ?_, rfl, rfl, ?_, ?_⟩
  · simp [Service.UpdateProduct, h]
  · simp [Service.UpdateProduct, repository.recording, h]
  · simp

theorem updateProduct_fetch_failure_witness :
    (brokenPort repoError).GetProduct () sampleUpdateDTO.ID = ((none, some repoError), ()) ∧
    ∃ err : GoError,
      Service.UpdateProduct ⟨some (brokenPort repoError)⟩ ⟨sampleRuntime, ()⟩ sampleUpdateDTO
        = .returned ((none, some err), ⟨sampleRuntime, ()⟩) ∧
      err.Error = "failed to get product: " ++ repoError.Error ∧ err.Unwrap = some repoError ∧
      Service.UpdateProduct ⟨some (brokenPort repoError).recording⟩
          ⟨sampleRuntime, ((), [])⟩ sampleUpdateDTO
        = .returned ((none, some err),
            ⟨sampleRuntime, ((), [] ++ [.GetProduct sampleUpdateDTO.ID])⟩) ∧
      ∀ q, PortCall.UpdateProduct q ∉ [PortCall.GetProduct sampleUpdateDTO.ID] :=
  ⟨rfl, updateProduct_fetch_failure (brokenPort repoError) sampleRuntime () () []
    sampleUpdateDTO none repoError rfl⟩

/-- C2: when the port's GetProduct returns the record `p0` and the port's UpdateProduct
succeeds, Service.UpdateProduct returns no error and a Product whose name, description and
price are the DTO's and whose id and created_at are those of `p0`; the port calls are the
fetch followed by one UpdateProduct that is handed that same returned Product. -/
theorem updateProduct_success {σ : Type} (r : repository σ) (rt : Runtime)
    (st st1 st2 : σ) (log : List PortCall) (dto : UpdateProductDTO) (p0 : Product)
    (hget : r.GetProduct st dto.ID = ((some p0, none), st1))
    (hput : r.UpdateProduct st1 (p0.Update rt dto.Name dto.Description dto.Price).1
      = (none, st2)) :
    ∃ (p : Product) (rt1 : Runtime),
      Service.UpdateProduct ⟨some r⟩ ⟨rt, st⟩ dto = .returned ((some p, none), ⟨rt1, st2⟩) ∧
      p.Name = dto.Name ∧ p.Description = dto.Description ∧ p.Price = dto.Price ∧
      p.ID = p0.ID ∧ p.CreatedAt = p0.CreatedAt ∧
      Service.UpdateProduct ⟨some r.recording⟩ ⟨rt, (st, log)⟩ dto
        = .returned ((some p, none),
            ⟨rt1, (st2, log ++ [.GetProduct dto.ID, .UpdateProduct p])⟩) := by
  refine ⟨(p0.Update rt dto.Name dto.Description dto.Price).1,
    (p0.Update rt dto.Name dto.Description dto.Price).2, ?_, rfl, rfl, rfl, rfl, rfl, ?_⟩
  · simp [Service.UpdateProduct, hget, hput]
  · simp [Service.UpdateProduct, repository.recording, hget, hput]

theorem updateProduct_success_witness :
    (memoryPort none).GetProduct [sampleProduct] sampleUpdateDTO.ID
      = ((some sampleProduct, none), [sampleProduct]) ∧
    (memoryPort none).UpdateProduct [sampleProduct]
        (sampleProduct.Update sampleRuntime sampleUpdateDTO.Name sampleUpdateDTO.Description
          sampleUpdateDTO.Price).1
      = (none, [⟨sampleID, "New Product Name", "New Product Description", ⟨0x43480000⟩,
          500, 1000⟩]) ∧
    ∃ (p : Product) (rt1 : Runtime),
      Service.UpdateProduct ⟨some (memoryPort none)⟩ ⟨sampleRuntime, [sampleProduct]⟩
          sampleUpdateDTO
        = .returned ((some p, none), ⟨rt1, [⟨sampleID, "New Product Name",
            "New Product Description", ⟨0x43480000⟩, 500, 1000⟩]⟩) ∧
      p.Name = sampleUpdateDTO.Name ∧ p.Description = sampleUpdateDTO.Description ∧
      p.Price = sampleUpdateDTO.Price ∧
      p.ID = sampleProduct.ID ∧ p.CreatedAt = sampleProduct.CreatedAt ∧
      Service.UpdateProduct ⟨some (memoryPort none).recording⟩
          ⟨sampleRuntime, ([sampleProduct], [])⟩ sampleUpdateDTO
        = .returned ((some p, none),
            ⟨rt1, ([⟨sampleID, "New Product Name", "New Product Description", ⟨0x43480000⟩,
              500, 1000⟩], [] ++ [.GetProduct sampleUpdateDTO.ID, .UpdateProduct p])⟩) :=
  ⟨by decide, by decide,
    updateProduct_success (memoryPort none) sampleRuntime [sampleProduct] [sampleProduct] _ []
      sampleUpdateDTO sampleProduct (by decide) (by decide)⟩

/-- C3: when the port's CreateProduct succeeds, Service.CreateProduct returns no error and
the Product built by NewProduct from the DTO: its name, description and price are the
DTO's, its created_at equals its updated_at, and the single port call made is a
CreateProduct that was handed that same Product value. -/
theorem createProduct_success {σ : Type} (r : repository σ) (rt : Runtime)
    (st st1 : σ) (log : List PortCall) (dto : CreateProductDTO)
    (h : r.CreateProduct st (NewProduct rt dto.Name dto.Description dto.Price).1
      = (none, st1)) :
    ∃ (p : Product) (rt1 : Runtime),
      Service.CreateProduct ⟨some r⟩ ⟨rt, st⟩ dto = .returned ((some p, none), ⟨rt1, st1⟩) ∧
      p = (NewProduct rt dto.Name dto.Description dto.Price).1 ∧
      p.Name = dto.Name ∧ p.Description = dto.Description ∧ p.Price = dto.Price ∧
      p.CreatedAt = p.UpdatedAt ∧
      Service.CreateProduct ⟨some r.recording⟩ ⟨rt, (st, log)⟩ dto
        = .returned ((some p, none), ⟨rt1, (st1, log ++ [.CreateProduct p])⟩) := by
  refine ⟨(NewProduct rt dto.Name dto.Description dto.Price).1,
    (NewProduct rt dto.Name dto.Description dto.Price).2, ?_, rfl, rfl, rfl, rfl, rfl, ?_⟩
  · simp [Service.CreateProduct, h]
  · simp [Service.CreateProduct, repository.recording, h]

theorem createProduct_success_witness :
    (memoryPort none).CreateProduct []
        (NewProduct sampleRuntime sampleCreateDTO.Name sampleCreateDTO.Description
          sampleCreateDTO.Price).1
      = (none, [⟨⟨[0, 1, 2, 3, 4, 5, 70, 7, 136, 9, 10, 11, 12, 13, 14, 15]⟩, "Test Product",
          "Test Description", ⟨0x42c80000⟩, 1000, 1000⟩]) ∧
    ∃ (p : Product) (rt1 : Runtime),
      Service.CreateProduct ⟨some (memoryPort none)⟩ ⟨sampleRuntime, []⟩ sampleCreateDTO
        = .returned ((some p, none),
            ⟨rt1, [⟨⟨[0, 1, 2, 3, 4, 5, 70, 7, 136, 9, 10, 11, 12, 13, 14, 15]⟩,
              "Test Product", "Test Description", ⟨0x42c80000⟩, 1000, 1000⟩]⟩) ∧
      p = (NewProduct sampleRuntime sampleCreateDTO.Name sampleCreateDTO.Description
        sampleCreateDTO.Price).1 ∧
      p.Name = sampleCreateDTO.Name ∧ p.Description = sampleCreateDTO.Description ∧
      p.Price = sampleCreateDTO.Price ∧ p.CreatedAt = p.UpdatedAt ∧
      Service.CreateProduct ⟨some (memoryPort none).recording⟩ ⟨sampleRuntime, ([], [])⟩
          sampleCreateDTO
        = .returned ((some p, none),
            ⟨rt1, ([⟨⟨[0, 1, 2, 3, 4, 5, 70, 7, 136, 9, 10, 11, 12, 13, 14, 15]⟩,
              "Test Product", "Test Description", ⟨0x42c80000⟩, 1000, 1000⟩],
              [] ++ [.CreateProduct p])⟩) :=
  ⟨by decide, createProduct_success (memoryPort none) sampleRuntime [] _ [] sampleCreateDTO
    (by decide)⟩

/-- C4: when the port's CreateProduct fails with `e`, Service.CreateProduct returns a nil
Product and an error whose message is "failed to create product: " followed by `e`'s
message and which unwraps to `e`. -/
theorem createProduct_failure {σ : Type} (r : repository σ) (rt : Runtime)
    (st st1 : σ) (dto : CreateProductDTO) (e : GoError)
    (h : r.CreateProduct st (NewProduct rt dto.Name dto.Description dto.Price).1
      = (some e, st1)) :
    ∃ (err : GoError) (rt1 : Runtime),
      Service.CreateProduct ⟨some r⟩ ⟨rt, st⟩ dto = .returned ((none, some err), ⟨rt1, st1⟩) ∧
      err.Error = "failed to create product: " ++ e.Error ∧ err.Unwrap = some e := by
  refine ⟨fmtErrorf "failed to create product: " e,
    (NewProduct rt dto.Name dto.Description dto.Price).2, ?_, rfl, rfl⟩
  simp [Service.CreateProduct, h]

theorem createProduct_failure_witness :
    (brokenPort repoError).CreateProduct ()
        (NewProduct sampleRuntime sampleCreateDTO.Name sampleCreateDTO.Description
          sampleCreateDTO.Price).1
      = (some repoError, ()) ∧
    ∃ (err : GoError) (rt1 : Runtime),
      Service.CreateProduct ⟨some (brokenPort repoError)⟩ ⟨sampleRuntime, ()⟩ sampleCreateDTO
        = .returned ((none, some err), ⟨rt1, ()⟩) ∧
      err.Error = "failed to create product: " ++ repoError.Error ∧
      err.Unwrap = some repoError :=
  ⟨rfl, createProduct_failure (brokenPort repoError) sampleRuntime () () sampleCreateDTO
    repoError rfl⟩

/-- C5: when the port's GetProduct returns a record and the port's UpdateProduct then
fails with `e`, Service.UpdateProduct returns a nil Product, not the mutated record, and an
error whose message is "failed to update product: " followed by `e`'s message and which
unwraps to `e`. -/
theorem updateProduct_persist_failure {σ : Type} (r : repository σ) (rt : Runtime)
    (st st1 st2 : σ) (dto : UpdateProductDTO) (p0 : Product) (e : GoError)
    (hget : r.GetProduct st dto.ID = ((some p0, none), st1))
    (hput : r.UpdateProduct st1 (p0.Update rt dto.Name dto.Description dto.Price).1
      = (some e, st2)) :
    ∃ (err : GoError) (rt1 : Runtime),
      Service.UpdateProduct ⟨some r⟩ ⟨rt, st⟩ dto = .returned ((none, some err), ⟨rt1, st2⟩) ∧
      err.Error = "failed to update product: " ++ e.Error ∧ err.Unwrap = some e := by
  refine ⟨fmtErrorf "failed to update product: " e,
    (p0.Update rt dto.Name dto.Description dto.Price).2, ?_, rfl, rfl⟩
  simp [Service.UpdateProduct, hget, hput]

theorem updateProduct_persist_failure_witness :
    (memoryPort (some repoError)).GetProduct [sampleProduct] sampleUpdateDTO.ID
      = ((some sampleProduct, none), [sampleProduct]) ∧
    (memoryPort (some repoError)).UpdateProduct [sampleProduct]
        (sampleProduct.Update sampleRuntime sampleUpdateDTO.Name sampleUpdateDTO.Description
          sampleUpdateDTO.Price).1
      = (some repoError, [sampleProduct]) ∧
    ∃ (err : GoError) (rt1 : Runtime),
      Service.UpdateProduct ⟨some (memoryPort (some repoError))⟩
          ⟨sampleRuntime, [sampleProduct]⟩ sampleUpdateDTO
        = .returned ((none, some err), ⟨rt1, [sampleProduct]⟩) ∧
      err.Error = "failed to update product: " ++ repoError.Error ∧
      err.Unwrap = some repoError :=
  ⟨by decide, by decide,
    updateProduct_persist_failure (memoryPort (some repoError)) sampleRuntime [sampleProduct]
      [sampleProduct] [sampleProduct] sampleUpdateDTO sampleProduct repoError
      (by decide) (by decide)⟩

/-! ## Service.DeleteProduct, Service.GetProduct and Service.GetProducts -/

/-- C6: Service.DeleteProduct and Service.GetProduct pass the port's outcome through.
DeleteProduct returns a nil error exactly when the port's DeleteProduct does, and its only
port call is that DeleteProduct (no fetch); GetProduct returns the port's Product with a nil
error exactly when the port's GetProduct has a nil error. When the port fails with `e`, the
error returned has the message "failed to delete product: " (respectively "failed to get
product: ") followed by `e`'s message and unwraps to `e`, and GetProduct's Product is nil. -/
theorem deleteProduct_getProduct_passthrough {σ : Type} (r : repository σ) (rt : Runtime)
    (st : σ) (log : List PortCall) (id : UUID) :
    (∃ res : Option GoError,
      Service.DeleteProduct ⟨some r⟩ ⟨rt, st⟩ id
        = .returned (res, ⟨rt, (r.DeleteProduct st id).2⟩) ∧
      (res = none ↔ (r.DeleteProduct st id).1 = none) ∧
      (∀ e, (r.DeleteProduct st id).1 = some e →
        ∃ err, res = some err ∧ err.Error = "failed to delete product: " ++ e.Error ∧
          err.Unwrap = some e) ∧
      Service.DeleteProduct ⟨some r.recording⟩ ⟨rt, (st, log)⟩ id
        = .returned (res, ⟨rt, ((r.DeleteProduct st id).2, log ++ [.DeleteProduct id])⟩)) ∧
    (∃ (p : Option Product) (res : Option GoError),
      Service.GetProduct ⟨some r⟩ ⟨rt, st⟩ id
        = .returned ((p, res), ⟨rt, (r.GetProduct st id).2⟩) ∧
      ((p = (r.GetProduct st id).1.1 ∧ res = none) ↔ (r.GetProduct st id).1.2 = none) ∧
      (∀ e, (r.GetProduct st id).1.2 = some e →
        p = none ∧ ∃ err, res = some err ∧
          err.Error = "failed to get product: " ++ e.Error ∧ err.Unwrap = some e) ∧
      Service.GetProduct ⟨some r.recording⟩ ⟨rt, (st, log)⟩ id
        = .returned ((p, res), ⟨rt, ((r.GetProduct st id).2, log ++ [.GetProduct id])⟩)) := by
  constructor
  · rcases hd : r.DeleteProduct st id with ⟨_ | e, st1⟩
    · exact ⟨none, by simp [Service.DeleteProduct, hd], by simp, by simp,
        by simp [Service.DeleteProduct, repository.recording, hd]⟩
    · refine ⟨some (fmtErrorf "failed to delete product: " e),
        by simp [Service.DeleteProduct, hd], by simp, ?_,
        by simp [Service.DeleteProduct, repository.recording, hd]⟩
      intro e0 he
      cases he
      exact ⟨_, rfl, rfl, rfl⟩
  · rcases hg : r.GetProduct st id with ⟨⟨p, _ | e⟩, st1⟩
    · exact ⟨p, none, by simp [Service.GetProduct, hg], by simp, by simp,
        by simp [Service.GetProduct, repository.recording, hg]⟩
    · refine ⟨none, some (fmtErrorf "failed to get product: " e),
        by simp [Service.GetProduct, hg], by simp, ?_,
        by simp [Service.GetProduct, repository.recording, hg]⟩
      intro e0 he
      cases he
      exact ⟨rfl, _, rfl, rfl, rfl⟩

/-- C6, evaluated: on a store holding `sampleProduct` the delete returns nil after the single
port call DeleteProduct and the get returns the stored product; on the broken port both
return the wrapped `repoError`. -/
theorem deleteProduct_getProduct_passthrough_witness :
    Service.DeleteProduct ⟨some (memoryPort none).recording⟩
        ⟨sampleRuntime, ([sampleProduct], [])⟩ sampleID
      = .returned (none, ⟨sampleRuntime, ([], [.DeleteProduct sampleID])⟩) ∧
    Service.GetProduct ⟨some (memoryPort none)⟩ ⟨sampleRuntime, [sampleProduct]⟩ sampleID
      = .returned ((some sampleProduct, none), ⟨sampleRuntime, [sampleProduct]⟩) ∧
    Service.DeleteProduct ⟨some (brokenPort repoError)⟩ ⟨sampleRuntime, ()⟩ sampleID
      = .returned (some (.wrapError "failed to delete product: repo error" repoError),
          ⟨sampleRuntime, ()⟩) ∧
    Service.GetProduct ⟨some (brokenPort repoError)⟩ ⟨sampleRuntime, ()⟩ sampleID
      = .returned ((none, some (.wrapError "failed to get product: repo error" repoError)),
          ⟨sampleRuntime, ()⟩) ∧
    ((∃ res : Option GoError,
      Service.DeleteProduct ⟨some (brokenPort repoError)⟩ ⟨sampleRuntime, ()⟩ sampleID
        = .returned (res, ⟨sampleRuntime, ((brokenPort repoError).DeleteProduct () sampleID).2⟩) ∧
      (res = none ↔ ((brokenPort repoError).DeleteProduct () sampleID).1 = none) ∧
      (∀ e, ((brokenPort repoError).DeleteProduct () sampleID).1 = some e →
        ∃ err, res = some err ∧ err.Error = "failed to delete product: " ++ e.Error ∧
          err.Unwrap = some e) ∧
      Service.DeleteProduct ⟨some (brokenPort repoError).recording⟩ ⟨sampleRuntime, ((), [])⟩
          sampleID
        = .returned (res, ⟨sampleRuntime, (((brokenPort repoError).DeleteProduct () sampleID).2,
            [] ++ [.DeleteProduct sampleID])⟩)) ∧
    (∃ (p : Option Product) (res : Option GoError),
      Service.GetProduct ⟨some (brokenPort repoError)⟩ ⟨sampleRuntime, ()⟩ sampleID
        = .returned ((p, res), ⟨sampleRuntime, ((brokenPort repoError).GetProduct () sampleID).2⟩) ∧
      ((p = ((brokenPort repoError).GetProduct () sampleID).1.1 ∧ res = none) ↔
        ((brokenPort repoError).GetProduct () sampleID).1.2 = none) ∧
      (∀ e, ((brokenPort repoError).GetProduct () sampleID).1.2 = some e →
        p = none ∧ ∃ err, res = some err ∧
          err.Error = "failed to get product: " ++ e.Error ∧ err.Unwrap = some e) ∧
      Service.GetProduct ⟨some (brokenPort repoError).recording⟩ ⟨sampleRuntime, ((), [])⟩
          sampleID
        = .returned ((p, res), ⟨sampleRuntime, (((brokenPort repoError).GetProduct () sampleID).2,
            [] ++ [.GetProduct sampleID])⟩))) :=
  ⟨rfl, rfl, rfl, rfl,
    deleteProduct_getProduct_passthrough (brokenPort repoError) sampleRuntime () [] sampleID⟩

/-- C7: Service.GetProducts makes exactly one port call, GetProducts with the limit and
offset it was given. When the port returns a nil error the service returns the port's
sequence itself (hence same length, elements and order) with a nil error; when the port
fails with `e` it returns the nil sequence and an error with message "failed to get
products: " followed by `e`'s message. In particular, a port that answers limit 20, offset 0
with an empty sequence and no error gets back an empty sequence and no error. -/
theorem getProducts_passthrough {σ : Type} (r : repository σ) (rt : Runtime)
    (st : σ) (log : List PortCall) (limit offset : Int) :
    (∃ (ps : Option (List (Option Product))) (res : Option GoError),
      Service.GetProducts ⟨some r⟩ ⟨rt, st⟩ limit offset
        = .returned ((ps, res), ⟨rt, (r.GetProducts st limit offset).2⟩) ∧
      Service.GetProducts ⟨some r.recording⟩ ⟨rt, (st, log)⟩ limit offset
        = .returned ((ps, res),
            ⟨rt, ((r.GetProducts st limit offset).2, log ++ [.GetProducts limit offset])⟩) ∧
      ((r.GetProducts st limit offset).1.2 = none →
        ps = (r.GetProducts st limit offset).1.1 ∧ res = none) ∧
      (∀ e, (r.GetProducts st limit offset).1.2 = some e →
        ps = none ∧ ∃ err, res = some err ∧
          err.Error = "failed to get products: " ++ e.Error ∧ err.Unwrap = some e)) ∧
    (∀ (ps0 : Option (List (Option Product))) (st1 : σ),
      r.GetProducts st 20 0 = ((ps0, none), st1) → ps0.getD [] = [] →
      ∃ ps, Service.GetProducts ⟨some r⟩ ⟨rt, st⟩ 20 0 = .returned ((ps, none), ⟨rt, st1⟩) ∧
        ps.getD [] = []) := by
  constructor
  · rcases hg : r.GetProducts st limit offset with ⟨⟨ps, _ | e⟩, st1⟩
    · exact ⟨ps, none, by simp [Service.GetProducts, hg],
        by simp [Service.GetProducts, repository.recording, hg], by simp, by simp⟩
    · refine ⟨none, some (fmtErrorf "failed to get products: " e),
        by simp [Service.GetProducts, hg],
        by simp [Service.GetProducts, repository.recording, hg], by simp, ?_⟩
      intro e0 he
      cases he
      exact ⟨rfl, _, rfl, rfl, rfl⟩
  · intro ps0 st1 hg hempty
    exact ⟨ps0, by simp [Service.GetProducts, hg], hempty⟩

/-- C7, evaluated: the in-memory port holding two products is asked for limit 20, offset 0
and the service returns both in the port's order; on the empty store it returns an empty
sequence and no error; on the broken port it returns the nil sequence and the wrapped
`repoError`. -/
theorem getProducts_passthrough_witness :
    Service.GetProducts ⟨some (memoryPort none).recording⟩
        ⟨sampleRuntime, ([{ sampleProduct with Name := "B" }, sampleProduct], [])⟩ 20 0
      = .returned ((some [some { sampleProduct with Name := "B" }, some sampleProduct], none),
          ⟨sampleRuntime, ([{ sampleProduct with Name := "B" }, sampleProduct],
            [.GetProducts 20 0])⟩) ∧
    Service.GetProducts ⟨some (memoryPort none)⟩ ⟨sampleRuntime, []⟩ 20 0
      = .returned ((some [], none), ⟨sampleRuntime, []⟩) ∧
    Service.GetProducts ⟨some (brokenPort repoError)⟩ ⟨sampleRuntime, ()⟩ 20 0
      = .returned ((none, some (.wrapError "failed to get products: repo error" repoError)),
          ⟨sampleRuntime, ()⟩) ∧
    (∀ (ps0 : Option (List (Option Product))) (st1 : List Product),
      (memoryPort none).GetProducts [] 20 0 = ((ps0, none), st1) → ps0.getD [] = [] →
      ∃ ps, Service.GetProducts ⟨some (memoryPort none)⟩ ⟨sampleRuntime, []⟩ 20 0
          = .returned ((ps, none), ⟨sampleRuntime, st1⟩) ∧
        ps.getD [] = []) :=
  ⟨rfl, rfl, rfl,
    (getProducts_passthrough (memoryPort none) sampleRuntime [] [] 20 0).2⟩

/-! ## Error contexts across operations -/

theorem head_of_context_append (t m : String) (h : 23 ≤ t.data.length) :
    (t ++ m).data.take 23 = t.data.take 23 := by
  rw [String.data_append, List.take_append_of_le_length h]

theorem contexts_long : ∀ o ∈ allOperations, ∀ t ∈ o.contexts, 23 ≤ t.data.length := by
  decide

theorem contexts_apart : ∀ o1 ∈ allOperations, ∀ o2 ∈ allOperations,
    ∀ t1 ∈ o1.contexts, ∀ t2 ∈ o2.contexts, t1.data.take 23 = t2.data.take 23 → o1 ≠ o2 →
      t1 = "failed to get product: " ∧ t2 = "failed to get product: " ∧
      ((o1 = .UpdateProduct ∧ o2 = .GetProduct) ∨
        (o1 = .GetProduct ∧ o2 = .UpdateProduct)) := by
  decide

theorem mem_allOperations (o : Operation) : o ∈ allOperations := by
  cases o <;> simp [allOperations]

/-- Every error a service call returns is `fmt.Errorf` of one of the operation's contexts
and a cause. -/
theorem returnedError_shape {σ : Type} (s : Service σ) (w : World σ) (c : ServiceCall)
    (e : GoError) (h : s.returnedError w c = some e) :
    ∃ t ∈ c.operation.contexts, ∃ cause, e = fmtErrorf t cause := by
  rcases s with ⟨_ | r⟩
  · cases c <;> simp [Service.returnedError, Outcome.errorOf, Service.CreateProduct,
      Service.UpdateProduct, Service.DeleteProduct, Service.GetProduct,
      Service.GetProducts] at h
  · cases c with
    | CreateProduct dto =>
      simp only [Service.returnedError, Service.CreateProduct] at h
      rcases hc : r.CreateProduct w.store
        (NewProduct w.rt dto.Name dto.Description dto.Price).1 with ⟨_ | e0, st1⟩
      · simp [hc, Outcome.errorOf] at h
      · simp [hc, Outcome.errorOf] at h
        exact ⟨_, by simp [ServiceCall.operation, Operation.contexts], e0, h.symm⟩
    | UpdateProduct dto =>
      simp only [Service.returnedError, Service.UpdateProduct] at h
      rcases hg : r.GetProduct w.store dto.ID with ⟨⟨p, _ | e0⟩, st1⟩
      · cases p with
        | none => simp [hg, Outcome.errorOf] at h
        | some p0 =>
          rcases hu : r.UpdateProduct st1
            (p0.Update w.rt dto.Name dto.Description dto.Price).1 with ⟨_ | e1, st2⟩
          · simp [hg, hu, Outcome.errorOf] at h
          · simp [hg, hu, Outcome.errorOf] at h
            exact ⟨_, by simp [ServiceCall.operation, Operation.contexts], e1, h.symm⟩
      · simp [hg, Outcome.errorOf] at h
        exact ⟨_, by simp [ServiceCall.operation, Operation.contexts], e0, h.symm⟩
    | DeleteProduct productID =>
      simp only [Service.returnedError, Service.DeleteProduct] at h
      rcases hd : r.DeleteProduct w.store productID with ⟨_ | e0, st1⟩
      · simp [hd, Outcome.errorOf] at h
      · simp [hd, Outcome.errorOf] at h
        exact ⟨_, by simp [ServiceCall.operation, Operation.contexts], e0, h.symm⟩
    | GetProduct productID =>
      simp only [Service.returnedError, Service.GetProduct] at h
      rcases hg : r.GetProduct w.store productID with ⟨⟨p, _ | e0⟩, st1⟩
      · simp [hg, Outcome.errorOf] at h
      · simp [hg, Outcome.errorOf] at h
        exact ⟨_, by simp [ServiceCall.operation, Operation.contexts], e0, h.symm⟩
    | GetProducts limit offset =>
      simp only [Service.returnedError, Service.GetProducts] at h
      rcases hg : r.GetProducts w.store limit offset with ⟨⟨ps, _ | e0⟩, st1⟩
      · simp [hg, Outcome.errorOf] at h
      · simp [hg, Outcome.errorOf] at h
        exact ⟨_, by simp [ServiceCall.operation, Operation.contexts], e0, h.symm⟩

/-- C8, as stated, fails: on a store without the requested product, Service.UpdateProduct
and Service.GetProduct return the very same error, with message "failed to get product: no
rows in result set", so the message does not tell the two service operations apart. -/
theorem updateProduct_getProduct_same_error :
    Service.UpdateProduct ⟨some (memoryPort none)⟩ ⟨sampleRuntime, []⟩ sampleUpdateDTO
      = .returned ((none, some (.wrapError "failed to get product: no rows in result set"
          (.errorString "no rows in result set"))), ⟨sampleRuntime, []⟩) ∧
    Service.GetProduct ⟨some (memoryPort none)⟩ ⟨sampleRuntime, []⟩ sampleID
      = .returned ((none, some (.wrapError "failed to get product: no rows in result set"
          (.errorString "no rows in result set"))), ⟨sampleRuntime, []⟩) ∧
    (ServiceCall.UpdateProduct sampleUpdateDTO).operation
      ≠ (ServiceCall.GetProduct sampleID).operation :=
  ⟨rfl, rfl, by decide⟩

/-- C8, amended: every error returned by one of the five service operations is built by
`fmt.Errorf` from a context of that operation ("failed to create product: ", "failed to
get product: " or "failed to update product: " for UpdateProduct, "failed to delete
product: ", "failed to get product: ", "failed to get products: ") and a cause; and the
messages returned by two different service operations differ, whatever the port errors,
unless one operation is UpdateProduct and the other GetProduct and both errors carry
"failed to get product: ". -/
theorem error_messages_tell_operations_apart {σ τ : Type} (s1 : Service σ) (s2 : Service τ)
    (w1 : World σ) (w2 : World τ) (c1 c2 : ServiceCall) (e1 e2 : GoError)
    (h1 : s1.returnedError w1 c1 = some e1) (h2 : s2.returnedError w2 c2 = some e2)
    (hop : c1.operation ≠ c2.operation) :
    (∃ t ∈ c1.operation.contexts, ∃ cause, e1 = fmtErrorf t cause) ∧
    (∃ t ∈ c2.operation.contexts, ∃ cause, e2 = fmtErrorf t cause) ∧
    (e1.Error = e2.Error →
      (∃ cause, e1 = fmtErrorf "failed to get product: " cause) ∧
      (∃ cause, e2 = fmtErrorf "failed to get product: " cause) ∧
      ((c1.operation = .UpdateProduct ∧ c2.operation = .GetProduct) ∨
        (c1.operation = .GetProduct ∧ c2.operation = .UpdateProduct))) := by
  obtain ⟨t1, ht1, k1, rfl⟩ := returnedError_shape s1 w1 c1 e1 h1
  obtain ⟨t2, ht2, k2, rfl⟩ := returnedError_shape s2 w2 c2 e2 h2
  refine ⟨⟨t1, ht1, k1, rfl⟩, ⟨t2, ht2, k2, rfl⟩, ?_⟩
  intro hmsg
  have hl1 := contexts_long _ (mem_allOperations c1.operation) t1 ht1
  have hl2 := contexts_long _ (mem_allOperations c2.operation) t2 ht2
  have hhead : t1.data.take 23 = t2.data.take 23 := by
    rw [← head_of_context_append t1 k1.Error hl1, ← head_of_context_append t2 k2.Error hl2]
    exact congrArg (fun m : String => m.data.take 23) hmsg
  obtain ⟨rfl, rfl, hops⟩ := contexts_apart _ (mem_allOperations c1.operation) _
    (mem_allOperations c2.operation) t1 ht1 t2 ht2 hhead hop
  exact ⟨⟨k1, rfl⟩, ⟨k2, rfl⟩, hops⟩

theorem error_messages_tell_operations_apart_witness :
    (Service.mk (some (brokenPort repoError))).returnedError ⟨sampleRuntime, ()⟩
        (.CreateProduct sampleCreateDTO)
      = some (.wrapError "failed to create product: repo error" repoError) ∧
    (Service.mk (some (memoryPort none))).returnedError ⟨sampleRuntime, []⟩
        (.GetProduct sampleID)
      = some (.wrapError "failed to get product: no rows in result set"
          (.errorString "no rows in result set")) ∧
    (ServiceCall.CreateProduct sampleCreateDTO).operation
      ≠ (ServiceCall.GetProduct sampleID).operation ∧
    ((∃ t ∈ (ServiceCall.CreateProduct sampleCreateDTO).operation.contexts, ∃ cause,
      GoError.wrapError "failed to create product: repo error" repoError
        = fmtErrorf t cause) ∧
    (∃ t ∈ (ServiceCall.GetProduct sampleID).operation.contexts, ∃ cause,
      GoError.wrapError "failed to get product: no rows in result set"
        (.errorString "no rows in result set") = fmtErrorf t cause) ∧
    ((GoError.wrapError "failed to create product: repo error" repoError).Error
        = (GoError.wrapError "failed to get product: no rows in result set"
          (.errorString "no rows in result set")).Error →
      (∃ cause, GoError.wrapError "failed to create product: repo error" repoError
        = fmtErrorf "failed to get product: " cause) ∧
      (∃ cause, GoError.wrapError "failed to get product: no rows in result set"
        (.errorString "no rows in result set") = fmtErrorf "failed to get product: " cause) ∧
      (((ServiceCall.CreateProduct sampleCreateDTO).operation = .UpdateProduct ∧
          (ServiceCall.GetProduct sampleID).operation = .GetProduct) ∨
        ((ServiceCall.CreateProduct sampleCreateDTO).operation = .GetProduct ∧
          (ServiceCall.GetProduct sampleID).operation = .UpdateProduct)))) :=
  ⟨rfl, rfl, by decide,
    error_messages_tell_operations_apart (Service.mk (some (brokenPort repoError)))
      (Service.mk (some (memoryPort none))) ⟨sampleRuntime, ()⟩ ⟨sampleRuntime, []⟩
      (.CreateProduct sampleCreateDTO) (.GetProduct sampleID) _ _ rfl rfl (by decide)⟩

/-! ## product.go: Update and the timestamps -/

/-- C9: after `p.Update(name, description, price)` the product's id and created_at are what
they were before the call, its name, description and price are the arguments, and its
updated_at is the clock reading taken during the call, the only one the call takes. -/
theorem product_update_frame (p : Product) (rt : Runtime) (name description : String)
    (price : float32) :
    (p.Update rt name description price).1.ID = p.ID ∧
    (p.Update rt name description price).1.CreatedAt = p.CreatedAt ∧
    (p.Update rt name description price).1.Name = name ∧
    (p.Update rt name description price).1.Description = description ∧
    (p.Update rt name description price).1.Price = price ∧
    (p.Update rt name description price).1.UpdatedAt = rt.timeNowUTC.1 ∧
    (p.Update rt name description price).2 = rt.timeNowUTC.2 :=
  ⟨rfl, rfl, rfl, rfl, rfl, rfl, rfl⟩

/-- C9, evaluated on `sampleProduct` with the clock reading 1000. -/
theorem product_update_frame_witness :
    (sampleProduct.Update sampleRuntime "New Product Name" "New Product Description"
        ⟨0x43480000⟩).1
      = ⟨sampleID, "New Product Name", "New Product Description", ⟨0x43480000⟩, 500, 1000⟩ ∧
    (sampleProduct.Update sampleRuntime "New Product Name" "New Product Description"
        ⟨0x43480000⟩).1.UpdatedAt = sampleRuntime.timeNowUTC.1 :=
  ⟨by decide, (product_update_frame sampleProduct sampleRuntime "New Product Name"
    "New Product Description" ⟨0x43480000⟩).2.2.2.2.2.1⟩

/-- C10, as stated, fails: `sampleProduct` has created_at 500; updated while the wall clock
reads 400, it ends with created_at 500 and updated_at 400. -/
theorem update_breaks_timestamp_order :
    (sampleProduct.Update laggingRuntime "New Product Name" "New Product Description"
        ⟨0x43480000⟩).1.CreatedAt = 500 ∧
    (sampleProduct.Update laggingRuntime "New Product Name" "New Product Description"
        ⟨0x43480000⟩).1.UpdatedAt = 400 ∧
    ¬ ((sampleProduct.Update laggingRuntime "New Product Name" "New Product Description"
        ⟨0x43480000⟩).1.CreatedAt
      ≤ (sampleProduct.Update laggingRuntime "New Product Name" "New Product Description"
        ⟨0x43480000⟩).1.UpdatedAt) := by
  decide

/-- C10, amended: created_at <= updated_at holds for every Product returned by NewProduct,
and after `p.Update` it holds exactly when the clock reading taken by the call is not
earlier than `p`'s created_at. -/
theorem timestamps_ordered (p : Product) (rt : Runtime) (name description : String)
    (price : float32) :
    (NewProduct rt name description price).1.CreatedAt
      ≤ (NewProduct rt name description price).1.UpdatedAt ∧
    ((p.Update rt name description price).1.CreatedAt
        ≤ (p.Update rt name description price).1.UpdatedAt
      ↔ p.CreatedAt ≤ rt.timeNowUTC.1) :=
  ⟨le_refl _, Iff.rfl⟩

/-- C10 amended, evaluated: a new product gets 1000 for both timestamps, and `sampleProduct`
(created at 500) updated at clock reading 1000 keeps its timestamps in order. -/
theorem timestamps_ordered_witness :
    (NewProduct sampleRuntime "Test Product" "Test Description" ⟨0x42c80000⟩).1.CreatedAt
      = 1000 ∧
    (NewProduct sampleRuntime "Test Product" "Test Description" ⟨0x42c80000⟩).1.UpdatedAt
      = 1000 ∧
    sampleProduct.CreatedAt ≤ sampleRuntime.timeNowUTC.1 ∧
    (sampleProduct.Update sampleRuntime "New Product Name" "New Product Description"
        ⟨0x43480000⟩).1.CreatedAt
      ≤ (sampleProduct.Update sampleRuntime "New Product Name" "New Product Description"
        ⟨0x43480000⟩).1.UpdatedAt :=
  ⟨by decide, by decide, by decide,
    (timestamps_ordered sampleProduct sampleRuntime "New Product Name"
      "New Product Description" ⟨0x43480000⟩).2.2 (by decide)⟩

end App

namespace App

/-! ## NewProduct and NewService -/

theorem version_byte_pos (b : Nat) : (b &&& 0x0f) ||| 0x40 ≠ 0 := by
  intro h
  have h6 := congrArg (fun n => n.testBit 6) h
  have h64 : Nat.testBit 64 6 = true := by decide
  simp [Nat.testBit_or, h64] at h6

/-- C11: NewProduct returns a Product whose name, description and price are the arguments,
whose identifier is the freshly generated one (sixteen bytes, not all zero), and whose
created_at and updated_at are both the single clock reading taken at construction. -/
theorem newProduct_fields (rt : Runtime) (name description : String) (price : float32) :
    (NewProduct rt name description price).1.Name = name ∧
    (NewProduct rt name description price).1.Description = description ∧
    (NewProduct rt name description price).1.Price = price ∧
    (NewProduct rt name description price).1.ID = rt.timeNowUTC.2.uuidNew.1 ∧
    (NewProduct rt name description price).1.ID.bytes.length = 16 ∧
    (NewProduct rt name description price).1.ID ≠ ⟨List.replicate 16 0⟩ ∧
    (NewProduct rt name description price).1.CreatedAt
      = (NewProduct rt name description price).1.UpdatedAt ∧
    (NewProduct rt name description price).1.CreatedAt = rt.timeNowUTC.1 ∧
    (NewProduct rt name description price).2.clockReads = rt.clockReads + 1 ∧
    (NewProduct rt name description price).2.uuidDraws = rt.uuidDraws + 1 := by
  refine ⟨rfl, rfl, rfl, rfl, ?_, ?_, rfl, rfl, rfl, rfl⟩
  · simp [NewProduct, Runtime.uuidNew]
  · intro h
    have h6 := congrArg (fun u : UUID => u.bytes.getD 6 0) h
    simp [NewProduct, Runtime.uuidNew, Runtime.timeNowUTC, List.getD_eq_getElem?_getD,
      List.getElem?_set, List.getElem?_replicate] at h6
    exact version_byte_pos _ h6

/-- C11, evaluated on the sample runtime: the clock reads 1000 and the drawn bytes 0..15
give an identifier with version nibble 4 and variant bits 10. -/
theorem newProduct_fields_witness :
    (NewProduct sampleRuntime "Test Product" "Test Description" ⟨0x42c80000⟩).1
      = ⟨⟨[0, 1, 2, 3, 4, 5, 70, 7, 136, 9, 10, 11, 12, 13, 14, 15]⟩, "Test Product",
          "Test Description", ⟨0x42c80000⟩, 1000, 1000⟩ ∧
    (NewProduct sampleRuntime "Test Product" "Test Description" ⟨0x42c80000⟩).1.ID
      ≠ ⟨List.replicate 16 0⟩ :=
  ⟨by decide, (newProduct_fields sampleRuntime "Test Product" "Test Description"
    ⟨0x42c80000⟩).2.2.2.2.2.1⟩

/-- C12: NewService fails exactly when the port is nil. For a nil port it returns the zero
Service value and an error with message "repository is nil"; for every non-nil port it
returns a nil error and a Service holding that port. -/
theorem newService_nil_check {σ : Type} (r : Option (repository σ)) :
    ((NewService r).2 ≠ none ↔ r = none) ∧
    (r = none →
      (NewService r).1 = (⟨none⟩ : Service σ) ∧
      ∃ err, (NewService r).2 = some err ∧ err.Error = "repository is nil") ∧
    (∀ port, r = some port →
      (NewService r).2 = none ∧ (NewService r).1.repository = some port) := by
  cases r with
  | none =>
    exact ⟨by simp [NewService], fun _ => ⟨rfl, _, rfl, rfl⟩, fun _ h => Option.noConfusion h⟩
  | some port =>
    refine ⟨by simp [NewService], fun h => Option.noConfusion h, fun q h => ?_⟩
    cases h
    exact ⟨rfl, rfl⟩

/-- C12, evaluated: the nil port is refused, the broken port is accepted and held. -/
theorem newService_nil_check_witness :
    (NewService (none : Option (repository Unit))).2
      = some (.errorString "repository is nil") ∧
    (NewService (some (brokenPort repoError))).2 = none ∧
    ((NewService (none : Option (repository Unit))).2 ≠ none ↔
      (none : Option (repository Unit)) = none) :=
  ⟨rfl, rfl, (newService_nil_check (none : Option (repository Unit))).1⟩

end App

namespace Http

open App

/-! ## Writing the response -/

theorem httpError_newRecorder (msg : String) (code : Nat) :
    httpError newRecorder msg code = ⟨some code, msg ++ "\n"⟩ := by
  simp [httpError, newRecorder, ResponseWriter.WriteHeader, ResponseWriter.Write]

theorem httpError_status (w : ResponseWriter) (msg : String) (code c : Nat)
    (h : w.status = some c) : (httpError w msg code).status = some c := by
  simp [httpError, ResponseWriter.WriteHeader, ResponseWriter.Write, h]

theorem encodeTo_status (c : Nat) (m : Except GoError String) :
    (encodeTo (newRecorder.WriteHeader c) m).1.status = some c := by
  cases m <;> simp [encodeTo, newRecorder, ResponseWriter.WriteHeader, ResponseWriter.Write]

/-- The loop of `getProductsHandler` on a sequence of non-nil products: it returns, and the
products field holds the converted products in order after what it held before. -/
theorem appendProductResponses_pointers (ps : List Product) (res : productsResponse) :
    appendProductResponses (ps.map some) res
      = .returned ⟨if ps = [] then res.Products
          else some (res.Products.getD [] ++ ps.map newProductResponse)⟩ := by
  induction ps generalizing res with
  | nil => simp [appendProductResponses]
  | cons p rest ih =>
    simp only [List.map_cons, appendProductResponses, ih]
    by_cases hrest : rest = [] <;> simp [hrest]

/-! ## getProductsHandler: limit and offset -/

/-- The one service call of getProductsHandler, recorded: GetProducts with the parsed or
defaulted limit and offset; the status is then 200, or 500 when the service failed. -/
theorem getProductsHandler_recorded {ω : Type} (svc : service ω) (libs : Libraries)
    (st st1 : ω) (log : List ServiceCall) (req : Request) (ps : Option (List Product))
    (err : Option GoError)
    (hsvc : svc.GetProducts st ((strconvAtoi (req.queryGet "limit")).getD 20)
        ((strconvAtoi (req.queryGet "offset")).getD 0)
      = .returned ((ps.map (List.map some), err), st1)) :
    ∃ w : ResponseWriter,
      Router.getProductsHandler ⟨some svc.recording⟩ libs newRecorder (st, log) req
        = .returned (w, (st1, log ++ [.GetProducts
            ((strconvAtoi (req.queryGet "limit")).getD 20)
            ((strconvAtoi (req.queryGet "offset")).getD 0)])) ∧
      (err = none → w.status = some 200) ∧
      (err ≠ none → w = ⟨some 500, "an error occurred\n"⟩) := by
  have hL : (match strconvAtoi (req.queryGet "limit") with
      | some n => n
      | none => getProductsDefaultLimit)
      = (strconvAtoi (req.queryGet "limit")).getD 20 := by
    cases strconvAtoi (req.queryGet "limit") <;> rfl
  have hO : (match strconvAtoi (req.queryGet "offset") with
      | some n => n
      | none => getProductsDefaultOffset)
      = (strconvAtoi (req.queryGet "offset")).getD 0 := by
    cases strconvAtoi (req.queryGet "offset") <;> rfl
  simp only [Router.getProductsHandler, hL, hO, service.recording, hsvc]
  cases err with
  | some e => exact ⟨_, rfl, by simp, fun _ => httpError_newRecorder _ _⟩
  | none =>
    have hloop : appendProductResponses ((ps.map (List.map some)).getD [])
        { Products := none }
        = .returned ⟨if ps.getD [] = [] then none
            else some ((ps.getD []).map newProductResponse)⟩ := by
      have := appendProductResponses_pointers (ps.getD []) { Products := none }
      cases ps <;> simpa using this
    simp only [hloop]
    rcases hm : libs.marshalProducts ⟨if ps.getD [] = [] then none
        else some ((ps.getD []).map newProductResponse)⟩ with e | text
    · refine ⟨_, rfl, fun _ => ?_, fun h => absurd rfl h⟩
      exact httpError_status _ _ _ _ rfl
    · exact ⟨_, rfl, fun _ => rfl, fun h => absurd rfl h⟩

/-- C13: getProductsHandler calls the service's GetProducts once, with the limit that
`strconv.Atoi` parses from the limit parameter, or 20 when it does not parse, and the offset
parsed from the offset parameter, or 0 when it does not parse, each independently of the
other; the answer is then 200, or 500 when the service failed, never a parse error. A blank
limit and offset, and an absent query, give the same outcome as limit=20&offset=0. -/
theorem getProducts_query_defaults {ω : Type} (svc : service ω) (libs : Libraries)
    (st st1 : ω) (log : List ServiceCall) (req : Request) (ps : Option (List Product))
    (err : Option GoError)
    (hsvc : svc.GetProducts st ((strconvAtoi (req.queryGet "limit")).getD 20)
        ((strconvAtoi (req.queryGet "offset")).getD 0)
      = .returned ((ps.map (List.map some), err), st1)) :
    (∃ w : ResponseWriter,
      Router.getProductsHandler ⟨some svc.recording⟩ libs newRecorder (st, log) req
        = .returned (w, (st1, log ++ [.GetProducts
            ((strconvAtoi (req.queryGet "limit")).getD 20)
            ((strconvAtoi (req.queryGet "offset")).getD 0)])) ∧
      (err = none → w.status = some 200) ∧
      (err ≠ none → w = ⟨some 500, "an error occurred\n"⟩)) ∧
    (∀ (r : Router ω) (w0 : ResponseWriter) (st0 : ω),
      r.getProductsHandler libs w0 st0 blankListRequest
        = r.getProductsHandler libs w0 st0 explicitListRequest ∧
      r.getProductsHandler libs w0 st0 bareListRequest
        = r.getProductsHandler libs w0 st0 explicitListRequest) := by
  refine ⟨getProductsHandler_recorded svc libs st st1 log req ps err hsvc, ?_⟩
  · intro r w0 st0
    have b1 : strconvAtoi (blankListRequest.queryGet "limit") = none := by decide
    have b2 : strconvAtoi (blankListRequest.queryGet "offset") = none := by decide
    have m1 : strconvAtoi (bareListRequest.queryGet "limit") = none := by decide
    have m2 : strconvAtoi (bareListRequest.queryGet "offset") = none := by decide
    have e1 : strconvAtoi (explicitListRequest.queryGet "limit") = some 20 := by decide
    have e2 : strconvAtoi (explicitListRequest.queryGet "offset") = some 0 := by decide
    simp only [Router.getProductsHandler, b1, b2, m1, m2, e1, e2, getProductsDefaultLimit,
      getProductsDefaultOffset, and_self]

theorem getProducts_query_defaults_witness :
    (ofService ⟨some (memoryPort none)⟩).GetProducts ⟨sampleRuntime, [sampleProduct]⟩
        ((strconvAtoi (blankListRequest.queryGet "limit")).getD 20)
        ((strconvAtoi (blankListRequest.queryGet "offset")).getD 0)
      = .returned (((some [sampleProduct]).map (List.map some), none),
          ⟨sampleRuntime, [sampleProduct]⟩) ∧
    (strconvAtoi (blankListRequest.queryGet "limit")).getD 20 = 20 ∧
    (strconvAtoi (blankListRequest.queryGet "offset")).getD 0 = 0 ∧
    ∃ w : ResponseWriter,
      Router.getProductsHandler ⟨some (ofService ⟨some (memoryPort none)⟩).recording⟩
          sampleLibraries newRecorder (⟨sampleRuntime, [sampleProduct]⟩, []) blankListRequest
        = .returned (w, (⟨sampleRuntime, [sampleProduct]⟩, [] ++ [.GetProducts
            ((strconvAtoi (blankListRequest.queryGet "limit")).getD 20)
            ((strconvAtoi (blankListRequest.queryGet "offset")).getD 0)])) ∧
      w.status = some 200 :=
  ⟨rfl, by decide, by decide,
    (getProducts_query_defaults (ofService ⟨some (memoryPort none)⟩) sampleLibraries
      ⟨sampleRuntime, [sampleProduct]⟩ ⟨sampleRuntime, [sampleProduct]⟩ [] blankListRequest
      (some [sampleProduct]) none rfl).1.elim
      (fun w h => ⟨w, h.1, h.2.1 rfl⟩)⟩

/-! ## updateProductHandler over Service.UpdateProduct -/

/-- C14: for an update request whose body decodes and whose path id parses, if the port's
GetProduct fails for that id then updateProductHandler over Service.UpdateProduct answers
with status 500 (and the body "an error occurred"), and the only port call made is that
GetProduct: neither CreateProduct nor UpdateProduct is called. -/
theorem update_of_missing_product {σ : Type} (r : repository σ) (libs : Libraries)
    (rt : Runtime) (st st1 : σ) (log : List PortCall) (req : Request)
    (body : productRequestBody) (id : UUID) (p : Option Product) (e : GoError)
    (hbody : libs.jsonDecode req.body = some body)
    (hid : libs.uuidParse (req.PathValue "product_id") = some id)
    (hget : r.GetProduct st id = ((p, some e), st1)) :
    Router.updateProductHandler ⟨some (ofService ⟨some r⟩)⟩ libs newRecorder ⟨rt, st⟩ req
      = .returned (⟨some 500, "an error occurred\n"⟩, ⟨rt, st1⟩) ∧
    Router.updateProductHandler ⟨some (ofService ⟨some r.recording⟩)⟩ libs newRecorder
        ⟨rt, (st, log)⟩ req
      = .returned (⟨some 500, "an error occurred\n"⟩,
          ⟨rt, (st1, log ++ [.GetProduct id])⟩) ∧
    ∀ q, PortCall.CreateProduct q ∉ [PortCall.GetProduct id] ∧
      PortCall.UpdateProduct q ∉ [PortCall.GetProduct id] := by
  refine ⟨?_, ?_, fun q => by simp⟩
  · simp [Router.updateProductHandler, hbody, hid, ofService, Service.UpdateProduct, hget,
      httpError_newRecorder, StatusInternalServerError]
  · simp [Router.updateProductHandler, hbody, hid, ofService, Service.UpdateProduct,
      repository.recording, hget, httpError_newRecorder, StatusInternalServerError]

theorem update_of_missing_product_witness :
    sampleLibraries.jsonDecode sampleRequest.body
      = some ⟨"Test Product", "Test Description", ⟨0x42c80000⟩⟩ ∧
    sampleLibraries.uuidParse (sampleRequest.PathValue "product_id") = some sampleID ∧
    (memoryPort none).GetProduct [] sampleID
      = ((none, some (.errorString "no rows in result set")), []) ∧
    Router.updateProductHandler ⟨some (ofService ⟨some (memoryPort none)⟩)⟩ sampleLibraries
        newRecorder ⟨sampleRuntime, []⟩ sampleRequest
      = .returned (⟨some 500, "an error occurred\n"⟩, ⟨sampleRuntime, []⟩) ∧
    Router.updateProductHandler ⟨some (ofService ⟨some (memoryPort none).recording⟩)⟩
        sampleLibraries newRecorder ⟨sampleRuntime, ([], [])⟩ sampleRequest
      = .returned (⟨some 500, "an error occurred\n"⟩,
          ⟨sampleRuntime, ([], [] ++ [.GetProduct sampleID])⟩) ∧
    ∀ q, PortCall.CreateProduct q ∉ [PortCall.GetProduct sampleID] ∧
      PortCall.UpdateProduct q ∉ [PortCall.GetProduct sampleID] :=
  ⟨by decide, by decide, by decide,
    update_of_missing_product (memoryPort none) sampleLibraries sampleRuntime [] [] []
      sampleRequest ⟨"Test Product", "Test Description", ⟨0x42c80000⟩⟩ sampleID none
      (.errorString "no rows in result set") (by decide) (by decide) (by decide)⟩

/-! ## Service failures -/

/-- C15: service failures do not leak into the response. For each of the five handlers and
any two services that answer the call of the same request with errors `e1` and `e2`, both
responses are status 500 with body "an error occurred" and a newline, whatever the errors
(and whatever product or listing comes with them). -/
theorem service_failure_is_generic {ω : Type} (svc1 svc2 : service ω) (libs : Libraries)
    (st : ω) (req : Request) (e1 e2 : GoError) :
    (∀ body p1 p2 s1 s2, libs.jsonDecode req.body = some body →
      svc1.CreateProduct st ⟨body.Name, body.Description, body.Price⟩
        = .returned ((p1, some e1), s1) →
      svc2.CreateProduct st ⟨body.Name, body.Description, body.Price⟩
        = .returned ((p2, some e2), s2) →
      Router.createProductHandler ⟨some svc1⟩ libs newRecorder st req
        = .returned (⟨some 500, "an error occurred\n"⟩, s1) ∧
      Router.createProductHandler ⟨some svc2⟩ libs newRecorder st req
        = .returned (⟨some 500, "an error occurred\n"⟩, s2)) ∧
    (∀ body id p1 p2 s1 s2, libs.jsonDecode req.body = some body →
      libs.uuidParse (req.PathValue "product_id") = some id →
      svc1.UpdateProduct st ⟨id, body.Name, body.Description, body.Price⟩
        = .returned ((p1, some e1), s1) →
      svc2.UpdateProduct st ⟨id, body.Name, body.Description, body.Price⟩
        = .returned ((p2, some e2), s2) →
      Router.updateProductHandler ⟨some svc1⟩ libs newRecorder st req
        = .returned (⟨some 500, "an error occurred\n"⟩, s1) ∧
      Router.updateProductHandler ⟨some svc2⟩ libs newRecorder st req
        = .returned (⟨some 500, "an error occurred\n"⟩, s2)) ∧
    (∀ id s1 s2, libs.uuidParse (req.PathValue "product_id") = some id →
      svc1.DeleteProduct st id = .returned (some e1, s1) →
      svc2.DeleteProduct st id = .returned (some e2, s2) →
      Router.deleteProductHandler ⟨some svc1⟩ libs newRecorder st req
        = .returned (⟨some 500, "an error occurred\n"⟩, s1) ∧
      Router.deleteProductHandler ⟨some svc2⟩ libs newRecorder st req
        = .returned (⟨some 500, "an error occurred\n"⟩, s2)) ∧
    (∀ id p1 p2 s1 s2, libs.uuidParse (req.PathValue "product_id") = some id →
      svc1.GetProduct st id = .returned ((p1, some e1), s1) →
      svc2.GetProduct st id = .returned ((p2, some e2), s2) →
      Router.getProductHandler ⟨some svc1⟩ libs newRecorder st req
        = .returned (⟨some 500, "an error occurred\n"⟩, s1) ∧
      Router.getProductHandler ⟨some svc2⟩ libs newRecorder st req
        = .returned (⟨some 500, "an error occurred\n"⟩, s2)) ∧
    (∀ ps1 ps2 s1 s2,
      svc1.GetProducts st ((strconvAtoi (req.queryGet "limit")).getD 20)
          ((strconvAtoi (req.queryGet "offset")).getD 0)
        = .returned ((ps1, some e1), s1) →
      svc2.GetProducts st ((strconvAtoi (req.queryGet "limit")).getD 20)
          ((strconvAtoi (req.queryGet "offset")).getD 0)
        = .returned ((ps2, some e2), s2) →
      Router.getProductsHandler ⟨some svc1⟩ libs newRecorder st req
        = .returned (⟨some 500, "an error occurred\n"⟩, s1) ∧
      Router.getProductsHandler ⟨some svc2⟩ libs newRecorder st req
        = .returned (⟨some 500, "an error occurred\n"⟩, s2)) := by
  refine ⟨?_, ?_, ?_, ?_, ?_⟩
  · intro body p1 p2 s1 s2 hb h1 h2
    simp [Router.createProductHandler, hb, h1, h2, httpError_newRecorder,
      StatusInternalServerError]
  · intro body id p1 p2 s1 s2 hb hid h1 h2
    simp [Router.updateProductHandler, hb, hid, h1, h2, httpError_newRecorder,
      StatusInternalServerError]
  · intro id s1 s2 hid h1 h2
    simp [Router.deleteProductHandler, hid, h1, h2, httpError_newRecorder,
      StatusInternalServerError]
  · intro id p1 p2 s1 s2 hid h1 h2
    simp [Router.getProductHandler, hid, h1, h2, httpError_newRecorder,
      StatusInternalServerError]
  · intro ps1 ps2 s1 s2 h1 h2
    have hL : (match strconvAtoi (req.queryGet "limit") with
        | some n => n
        | none => getProductsDefaultLimit)
        = (strconvAtoi (req.queryGet "limit")).getD 20 := by
      cases strconvAtoi (req.queryGet "limit") <;> rfl
    have hO : (match strconvAtoi (req.queryGet "offset") with
        | some n => n
        | none => getProductsDefaultOffset)
        = (strconvAtoi (req.queryGet "offset")).getD 0 := by
      cases strconvAtoi (req.queryGet "offset") <;> rfl
    simp only [Router.getProductsHandler, hL, hO, h1, h2]
    simp [httpError_newRecorder, StatusInternalServerError]

/-- C15, evaluated: with a service that fails with "service error" and one that fails with
"repo error", all five handlers answer 500 "an error occurred". -/
theorem service_failure_is_generic_witness :
    Router.updateProductHandler ⟨some (stubService none none (some serviceError))⟩
        sampleLibraries newRecorder () sampleRequest
      = .returned (⟨some 500, "an error occurred\n"⟩, ()) ∧
    Router.deleteProductHandler ⟨some (stubService none none (some serviceError))⟩
        sampleLibraries newRecorder () sampleRequest
      = .returned (⟨some 500, "an error occurred\n"⟩, ()) ∧
    Router.getProductHandler ⟨some (stubService none none (some serviceError))⟩
        sampleLibraries newRecorder () sampleRequest
      = .returned (⟨some 500, "an error occurred\n"⟩, ()) ∧
    Router.getProductsHandler ⟨some (stubService none none (some serviceError))⟩
        sampleLibraries newRecorder () blankListRequest
      = .returned (⟨some 500, "an error occurred\n"⟩, ()) ∧
    Router.createProductHandler ⟨some (stubService none none (some serviceError))⟩
        sampleLibraries newRecorder () sampleRequest
      = .returned (⟨some 500, "an error occurred\n"⟩, ()) ∧
    Router.createProductHandler ⟨some (stubService (some sampleProduct) none (some repoError))⟩
        sampleLibraries newRecorder () sampleRequest
      = .returned (⟨some 500, "an error occurred\n"⟩, ()) :=
  ⟨rfl, rfl, rfl, rfl,
    (service_failure_is_generic (stubService none none (some serviceError))
      (stubService (some sampleProduct) none (some repoError)) sampleLibraries () sampleRequest
      serviceError repoError).1 ⟨"Test Product", "Test Description", ⟨0x42c80000⟩⟩ none
      (some sampleProduct) () () (by decide) rfl rfl⟩

/-! ## Malformed input -/

/-- C16, as stated, fails: an update request whose body does not decode and whose path id
is empty, hence not a valid UUID, is answered with "invalid request body", not with
"invalid product id". -/
theorem update_checks_body_first :
    sampleLibraries.jsonDecode malformedRequest.body = none ∧
    malformedRequest.PathValue "product_id" = "" ∧
    sampleLibraries.uuidParse (malformedRequest.PathValue "product_id") = none ∧
    Router.updateProductHandler ⟨some (stubService (some sampleProduct) none none)⟩
        sampleLibraries newRecorder () malformedRequest
      = .returned (⟨some 400, "invalid request body\n"⟩, ()) ∧
    Router.updateProductHandler ⟨some (stubService (some sampleProduct) none none)⟩
        sampleLibraries newRecorder () malformedRequest
      ≠ .returned (⟨some 400, "invalid product id\n"⟩, ()) := by
  refine ⟨by decide, by decide, by decide, rfl, ?_⟩
  intro h
  have hbody : (⟨some 400, "invalid request body\n"⟩ : ResponseWriter)
      = ⟨some 400, "invalid product id\n"⟩ := by
    have h2 : Router.updateProductHandler ⟨some (stubService (some sampleProduct) none none)⟩
        sampleLibraries newRecorder () malformedRequest
      = .returned (⟨some 400, "invalid request body\n"⟩, ()) := rfl
    rw [h2] at h
    injection h with h
    injection h
  exact absurd hbody (by decide)

/-- C16, amended: malformed input is rejected before the service is reached. A create or
update request whose body does not decode is answered 400 "invalid request body"; an update
request whose body decodes, and every delete or get request, whose path id is not a valid
UUID is answered 400 "invalid product id"; the empty string is not a valid UUID, and a
missing path id reads as the empty string. In all these cases the service records no call
and its state is unchanged. -/
theorem malformed_input_is_rejected {ω : Type} (svc : service ω) (libs : Libraries)
    (st : ω) (log : List ServiceCall) (req : Request) :
    (libs.jsonDecode req.body = none →
      Router.createProductHandler ⟨some svc.recording⟩ libs newRecorder (st, log) req
        = .returned (⟨some 400, "invalid request body\n"⟩, (st, log)) ∧
      Router.updateProductHandler ⟨some svc.recording⟩ libs newRecorder (st, log) req
        = .returned (⟨some 400, "invalid request body\n"⟩, (st, log))) ∧
    (libs.uuidParse (req.PathValue "product_id") = none →
      (∀ body, libs.jsonDecode req.body = some body →
        Router.updateProductHandler ⟨some svc.recording⟩ libs newRecorder (st, log) req
          = .returned (⟨some 400, "invalid product id\n"⟩, (st, log))) ∧
      Router.deleteProductHandler ⟨some svc.recording⟩ libs newRecorder (st, log) req
        = .returned (⟨some 400, "invalid product id\n"⟩, (st, log)) ∧
      Router.getProductHandler ⟨some svc.recording⟩ libs newRecorder (st, log) req
        = .returned (⟨some 400, "invalid product id\n"⟩, (st, log))) ∧
    libs.uuidParse "" = none ∧
    (req.pathValues = [] → req.PathValue "product_id" = "") := by
  refine ⟨fun hb => ?_, fun hid => ⟨fun body hb => ?_, ?_, ?_⟩, ?_, fun h => ?_⟩
  · simp [Router.createProductHandler, Router.updateProductHandler, hb,
      httpError_newRecorder, StatusBadRequest]
  · simp [Router.updateProductHandler, hb, hid, httpError_newRecorder, StatusBadRequest]
  · simp [Router.deleteProductHandler, hid, httpError_newRecorder, StatusBadRequest]
  · simp [Router.getProductHandler, hid, httpError_newRecorder, StatusBadRequest]
  · exact libs.uuidParse_length "" (by decide)
  · simp [Request.PathValue, h]

/-- C16 amended, evaluated on the requests of `router_test.go`: the body `\x7b` is refused
by create, and a missing path id is refused by update (with a good body), delete and get. -/
theorem malformed_input_is_rejected_witness :
    Router.createProductHandler ⟨some (stubService (some sampleProduct) none none).recording⟩
        sampleLibraries newRecorder ((), []) malformedRequest
      = .returned (⟨some 400, "invalid request body\n"⟩, ((), [])) ∧
    Router.updateProductHandler ⟨some (stubService (some sampleProduct) none none).recording⟩
        sampleLibraries newRecorder ((), []) { sampleRequest with pathValues := [] }
      = .returned (⟨some 400, "invalid product id\n"⟩, ((), [])) ∧
    Router.deleteProductHandler ⟨some (stubService (some sampleProduct) none none).recording⟩
        sampleLibraries newRecorder ((), []) malformedRequest
      = .returned (⟨some 400, "invalid product id\n"⟩, ((), [])) ∧
    Router.getProductHandler ⟨some (stubService (some sampleProduct) none none).recording⟩
        sampleLibraries newRecorder ((), []) malformedRequest
      = .returned (⟨some 400, "invalid product id\n"⟩, ((), [])) ∧
    sampleLibraries.uuidParse "" = none :=
  ⟨rfl, rfl, rfl, rfl,
    (malformed_input_is_rejected (stubService (some sampleProduct) none none) sampleLibraries
      () [] malformedRequest).2.2.1⟩

/-! ## Success responses -/

theorem encodeTo_ok (c : Nat) (text : String) :
    encodeTo (newRecorder.WriteHeader c) (.ok text) = (⟨some c, text⟩, none) := by
  simp [encodeTo, newRecorder, ResponseWriter.WriteHeader, ResponseWriter.Write]

/-- What a handler leaves in a fresh writer after `WriteHeader(c)` and `Encode`: the status
is `c`, and the body is the encoded text when marshalling succeeds. -/
theorem encoded_response {ω : Type} (c : Nat) (m : Except GoError String) (st1 : ω)
    (onError : GoError → String) :
    ∃ w : ResponseWriter,
      (match encodeTo (newRecorder.WriteHeader c) m with
        | (w2, some err) =>
          Outcome.returned (httpError w2 (onError err) StatusInternalServerError, st1)
        | (w2, none) => Outcome.returned (w2, st1)) = .returned (w, st1) ∧
      w.status = some c ∧ ∀ text, m = .ok text → w.body = text := by
  cases m with
  | error e =>
    refine ⟨_, rfl, httpError_status _ _ _ _ rfl, fun text h => ?_⟩
    cases h
  | ok text =>
    refine ⟨⟨some c, text⟩, by simp [encodeTo_ok], rfl, fun t h => ?_⟩
    cases h
    rfl

/-- C17, as stated, fails: the service creates successfully and returns a product whose
price is NaN; `encoding/json` refuses to encode it after the header is written, and the
create handler answers status 201 with the body "an error occurred", not a representation
of the product; the get handler, given the same product by the service, answers status 200
with the encoder's message as body. -/
theorem create_answer_for_nan_price :
    nanProduct.Price.isFinite = false ∧
    (stubService (some nanProduct) none none).CreateProduct () sampleCreateDTO
      = .returned ((some nanProduct, none), ()) ∧
    Router.createProductHandler ⟨some (stubService (some nanProduct) none none)⟩
        sampleLibraries newRecorder () sampleRequest
      = .returned (⟨some 201, "an error occurred\n"⟩, ()) ∧
    (stubService (some nanProduct) none none).GetProduct () sampleID
      = .returned ((some nanProduct, none), ()) ∧
    Router.getProductHandler ⟨some (stubService (some nanProduct) none none)⟩
        sampleLibraries newRecorder () sampleRequest
      = .returned (⟨some 200, "json: unsupported value: NaN\n"⟩, ()) :=
  ⟨by decide, rfl, rfl, rfl, rfl⟩

/-- C17, amended: when the service succeeds with a Product `p` and the JSON encoding of
its representation succeeds, create answers with status 201, update with 200 and get with
200, each with the encoding of the representation as body, and the id, name, description,
price, created_at and updated_at of that representation are the six fields of `p`; delete
answers 204 with an empty body when the service succeeds. Nothing is said of the answer
when the encoding fails. -/
theorem success_responses {ω : Type} (svc : service ω) (libs : Libraries) (st st1 : ω)
    (req : Request) (p : Product) :
    (∀ body text, libs.jsonDecode req.body = some body →
      svc.CreateProduct st ⟨body.Name, body.Description, body.Price⟩
        = .returned ((some p, none), st1) →
      libs.marshalProduct (newProductResponse p) = .ok text →
      Router.createProductHandler ⟨some svc⟩ libs newRecorder st req
        = .returned (⟨some 201, text⟩, st1)) ∧
    (∀ body id text, libs.jsonDecode req.body = some body →
      libs.uuidParse (req.PathValue "product_id") = some id →
      svc.UpdateProduct st ⟨id, body.Name, body.Description, body.Price⟩
        = .returned ((some p, none), st1) →
      libs.marshalProduct (newProductResponse p) = .ok text →
      Router.updateProductHandler ⟨some svc⟩ libs newRecorder st req
        = .returned (⟨some 200, text⟩, st1)) ∧
    (∀ id text, libs.uuidParse (req.PathValue "product_id") = some id →
      svc.GetProduct st id = .returned ((some p, none), st1) →
      libs.marshalProduct (newProductResponse p) = .ok text →
      Router.getProductHandler ⟨some svc⟩ libs newRecorder st req
        = .returned (⟨some 200, text⟩, st1)) ∧
    (∀ id, libs.uuidParse (req.PathValue "product_id") = some id →
      svc.DeleteProduct st id = .returned (none, st1) →
      Router.deleteProductHandler ⟨some svc⟩ libs newRecorder st req
        = .returned (⟨some 204, ""⟩, st1)) ∧
    ((newProductResponse p).ID = p.ID ∧ (newProductResponse p).Name = p.Name ∧
      (newProductResponse p).Description = p.Description ∧
      (newProductResponse p).Price = p.Price ∧
      (newProductResponse p).CreatedAt = p.CreatedAt ∧
      (newProductResponse p).UpdatedAt = p.UpdatedAt) ∧
    (p.Price.isFinite = true →
      libs.marshalProduct (newProductResponse p) = libs.jsonMarshal (newProductResponse p)) := by
  refine ⟨?_, ?_, ?_, ?_, ⟨rfl, rfl, rfl, rfl, rfl, rfl⟩, fun h => ?_⟩
  · intro body text hb hsvc henc
    simp [Router.createProductHandler, hb, hsvc, henc, encodeTo_ok, StatusCreated]
  · intro body id text hb hid hsvc henc
    simp [Router.updateProductHandler, hb, hid, hsvc, henc, encodeTo_ok, StatusOK]
  · intro id text hid hsvc henc
    simp [Router.getProductHandler, hid, hsvc, henc, encodeTo_ok, StatusOK]
  · intro id hid hsvc
    simp [Router.deleteProductHandler, hid, hsvc, newRecorder, ResponseWriter.WriteHeader,
      StatusNoContent]
  · simp [Libraries.marshalProduct, newProductResponse, h]

/-- C17 amended, evaluated: the stub service returns `sampleProduct`, whose price 100.0 is
finite, and the stand-in encoder succeeds; create answers 201, update and get 200, each with
that encoding as body, and delete answers 204 with an empty body. -/
theorem success_responses_witness :
    sampleLibraries.marshalProduct (newProductResponse sampleProduct)
      = .ok (renderProduct (newProductResponse sampleProduct) ++ "\n") ∧
    Router.updateProductHandler ⟨some (stubService (some sampleProduct) none none)⟩
        sampleLibraries newRecorder () sampleRequest
      = .returned (⟨some 200, renderProduct (newProductResponse sampleProduct) ++ "\n"⟩, ()) ∧
    Router.getProductHandler ⟨some (stubService (some sampleProduct) none none)⟩
        sampleLibraries newRecorder () sampleRequest
      = .returned (⟨some 200, renderProduct (newProductResponse sampleProduct) ++ "\n"⟩, ()) ∧
    Router.deleteProductHandler ⟨some (stubService (some sampleProduct) none none)⟩
        sampleLibraries newRecorder () sampleRequest
      = .returned (⟨some 204, ""⟩, ()) ∧
    Router.createProductHandler ⟨some (stubService (some sampleProduct) none none)⟩
        sampleLibraries newRecorder () sampleRequest
      = .returned (⟨some 201, renderProduct (newProductResponse sampleProduct) ++ "\n"⟩, ()) :=
  ⟨rfl, rfl, rfl, rfl,
    (success_responses (stubService (some sampleProduct) none none) sampleLibraries () ()
      sampleRequest sampleProduct).1 ⟨"Test Product", "Test Description", ⟨0x42c80000⟩⟩
      (renderProduct (newProductResponse sampleProduct) ++ "\n") (by decide) rfl rfl⟩

end Http

namespace App

/-! ## The port calls of one service call -/

/-- C18: nothing is retried and nothing is re-fetched. Against a recording port, one call
of CreateProduct makes exactly the port call CreateProduct; UpdateProduct makes exactly
GetProduct when the fetch fails, and exactly GetProduct then UpdateProduct when the fetch
returns a record (when the port answers the fetch with a nil product and a nil error the
call panics instead of returning); DeleteProduct makes exactly DeleteProduct, GetProduct
exactly GetProduct and GetProducts exactly GetProducts. Each call is recorded with the
arguments the service was given or built. -/
theorem port_calls_of_service_call {σ : Type} (r : repository σ) (rt : Runtime) (st : σ)
    (log : List PortCall) :
    (∀ dto, ∃ res w,
      Service.CreateProduct ⟨some r.recording⟩ ⟨rt, (st, log)⟩ dto = .returned (res, w) ∧
      w.store.2
        = log ++ [.CreateProduct (NewProduct rt dto.Name dto.Description dto.Price).1]) ∧
    (∀ dto : UpdateProductDTO,
      (∀ p e st1, r.GetProduct st dto.ID = ((p, some e), st1) →
        ∃ res w,
          Service.UpdateProduct ⟨some r.recording⟩ ⟨rt, (st, log)⟩ dto = .returned (res, w) ∧
          w.store.2 = log ++ [.GetProduct dto.ID]) ∧
      (∀ p st1, r.GetProduct st dto.ID = ((some p, none), st1) →
        ∃ res w,
          Service.UpdateProduct ⟨some r.recording⟩ ⟨rt, (st, log)⟩ dto = .returned (res, w) ∧
          w.store.2 = log ++ [.GetProduct dto.ID,
            .UpdateProduct (p.Update rt dto.Name dto.Description dto.Price).1]) ∧
      (∀ st1, r.GetProduct st dto.ID = ((none, none), st1) →
        Service.UpdateProduct ⟨some r.recording⟩ ⟨rt, (st, log)⟩ dto = .panicked)) ∧
    (∀ id, ∃ res w,
      Service.DeleteProduct ⟨some r.recording⟩ ⟨rt, (st, log)⟩ id = .returned (res, w) ∧
      w.store.2 = log ++ [.DeleteProduct id]) ∧
    (∀ id, ∃ res w,
      Service.GetProduct ⟨some r.recording⟩ ⟨rt, (st, log)⟩ id = .returned (res, w) ∧
      w.store.2 = log ++ [.GetProduct id]) ∧
    (∀ limit offset, ∃ res w,
      Service.GetProducts ⟨some r.recording⟩ ⟨rt, (st, log)⟩ limit offset
        = .returned (res, w) ∧
      w.store.2 = log ++ [.GetProducts limit offset]) := by
  refine ⟨fun dto => ?_, fun dto => ⟨fun p e st1 hg => ?_, fun p st1 hg => ?_,
    fun st1 hg => ?_⟩, fun id => ?_, fun id => ?_, fun limit offset => ?_⟩
  · rcases hc : r.CreateProduct st (NewProduct rt dto.Name dto.Description dto.Price).1
      with ⟨_ | e, st1⟩ <;>
    · simp only [Service.CreateProduct, repository.recording, hc]
      exact ⟨_, _, rfl, rfl⟩
  · simp only [Service.UpdateProduct, repository.recording, hg]
    exact ⟨_, _, rfl, rfl⟩
  · rcases hu : r.UpdateProduct st1 (p.Update rt dto.Name dto.Description dto.Price).1
      with ⟨_ | e, st2⟩ <;>
    · simp only [Service.UpdateProduct, repository.recording, hg, hu]
      exact ⟨_, _, rfl, by simp⟩
  · simp [Service.UpdateProduct, repository.recording, hg]
  · rcases hd : r.DeleteProduct st id with ⟨_ | e, st1⟩ <;>
    · simp only [Service.DeleteProduct, repository.recording, hd]
      exact ⟨_, _, rfl, rfl⟩
  · rcases hg : r.GetProduct st id with ⟨⟨p, _ | e⟩, st1⟩ <;>
    · simp only [Service.GetProduct, repository.recording, hg]
      exact ⟨_, _, rfl, rfl⟩
  · rcases hg : r.GetProducts st limit offset with ⟨⟨ps, _ | e⟩, st1⟩ <;>
    · simp only [Service.GetProducts, repository.recording, hg]
      exact ⟨_, _, rfl, rfl⟩

end App

namespace App

/-- C18, evaluated on the in-memory port holding `sampleProduct`: an update records the
fetch and then the write of the updated product, a delete records only the delete. -/
theorem port_calls_of_service_call_witness :
    Service.UpdateProduct ⟨some (memoryPort none).recording⟩
        ⟨sampleRuntime, ([sampleProduct], [])⟩ sampleUpdateDTO
      = .returned ((some ⟨sampleID, "New Product Name", "New Product Description",
            ⟨0x43480000⟩, 500, 1000⟩, none),
          ⟨sampleRuntime.timeNowUTC.2,
            ([⟨sampleID, "New Product Name", "New Product Description", ⟨0x43480000⟩, 500,
                1000⟩],
              [.GetProduct sampleID, .UpdateProduct ⟨sampleID, "New Product Name",
                "New Product Description", ⟨0x43480000⟩, 500, 1000⟩])⟩) ∧
    ∃ res w,
      Service.DeleteProduct ⟨some (memoryPort none).recording⟩
          ⟨sampleRuntime, ([sampleProduct], [])⟩ sampleID = .returned (res, w) ∧
      w.store.2 = [] ++ [.DeleteProduct sampleID] :=
  ⟨rfl, (port_calls_of_service_call (memoryPort none) sampleRuntime [sampleProduct] []).2.2.1
    sampleID⟩

end App

namespace Http

open App

/-! ## getProductsHandler: the blank query and the listing -/

/-- C19: what the code does when the limit and offset parameters are both blank. The
service's GetProducts is called with limit 20 and offset 0, which is not the call with limit
5 and offset 0 that the claim and `router_test.go` expect; the answer is 200 when the
service succeeds. -/
theorem blank_query_calls_with_limit_20 {ω : Type} (svc : service ω) (libs : Libraries)
    (st st1 : ω) (log : List ServiceCall) (ps : Option (List Product))
    (err : Option GoError)
    (hsvc : svc.GetProducts st 20 0 = .returned ((ps.map (List.map some), err), st1)) :
    ∃ w : ResponseWriter,
      Router.getProductsHandler ⟨some svc.recording⟩ libs newRecorder (st, log)
          blankListRequest
        = .returned (w, (st1, log ++ [.GetProducts 20 0])) ∧
      (err = none → w.status = some 200) ∧
      ServiceCall.GetProducts 20 0 ≠ ServiceCall.GetProducts 5 0 := by
  have hl : (strconvAtoi (blankListRequest.queryGet "limit")).getD 20 = 20 := by decide
  have ho : (strconvAtoi (blankListRequest.queryGet "offset")).getD 0 = 0 := by decide
  obtain ⟨w, h1, h2, _⟩ := getProductsHandler_recorded svc libs st st1 log blankListRequest
    ps err (by rw [hl, ho]; exact hsvc)
  rw [hl, ho] at h1
  exact ⟨w, h1, h2, by decide⟩

theorem blank_query_calls_with_limit_20_witness :
    (stubService none (some [some sampleProduct]) none).GetProducts () 20 0
      = .returned (((some [sampleProduct]).map (List.map some), none), ()) ∧
    ∃ w : ResponseWriter,
      Router.getProductsHandler
          ⟨some (stubService none (some [some sampleProduct]) none).recording⟩
          sampleLibraries newRecorder ((), []) blankListRequest
        = .returned (w, ((), [] ++ [.GetProducts 20 0])) ∧
      ((none : Option GoError) = none → w.status = some 200) ∧
      ServiceCall.GetProducts 20 0 ≠ ServiceCall.GetProducts 5 0 :=
  ⟨rfl, blank_query_calls_with_limit_20 (stubService none (some [some sampleProduct]) none)
    sampleLibraries () () [] (some [sampleProduct]) none rfl⟩

/-- C20: for every sequence of Products the service returns, the loop of getProductsHandler
returns a listing whose products field holds a sequence of the same length, in the same
order, whose i-th element carries the id, name, description, price, created_at and
updated_at of the i-th Product; with status 200 the handler writes the encoding of that
listing whenever the encoding succeeds. -/
theorem listing_response_mirrors_products {ω : Type} (svc : service ω) (libs : Libraries)
    (st st1 : ω) (req : Request) (ps : List Product) :
    ∃ res : productsResponse,
      appendProductResponses (ps.map some) { Products := none } = .returned res ∧
      (res.Products.getD []).length = ps.length ∧
      res.Products.getD [] = ps.map newProductResponse ∧
      (∀ (i : Nat) (p : Product), ps[i]? = some p →
        ∃ r : productResponse, (res.Products.getD [])[i]? = some r ∧
          r.ID = p.ID ∧ r.Name = p.Name ∧ r.Description = p.Description ∧
          r.Price = p.Price ∧ r.CreatedAt = p.CreatedAt ∧ r.UpdatedAt = p.UpdatedAt) ∧
      (∀ slice : Option (List (Option Product)), slice.getD [] = ps.map some →
        svc.GetProducts st ((strconvAtoi (req.queryGet "limit")).getD 20)
            ((strconvAtoi (req.queryGet "offset")).getD 0)
          = .returned ((slice, none), st1) →
        ∃ w : ResponseWriter,
          Router.getProductsHandler ⟨some svc⟩ libs newRecorder st req
            = .returned (w, st1) ∧
          w.status = some 200 ∧
          ∀ text, libs.marshalProducts res = .ok text → w.body = text) := by
  have hloop := appendProductResponses_pointers ps { Products := none }
  refine ⟨_, hloop, ?_, ?_, ?_, ?_⟩
  · by_cases h : ps = [] <;> simp [h]
  · by_cases h : ps = [] <;> simp [h]
  · intro i p hp
    refine ⟨newProductResponse p, ?_, rfl, rfl, rfl, rfl, rfl, rfl⟩
    by_cases h : ps = []
    · simp [h] at hp
    · simp [h, List.getElem?_map, hp]
  · intro slice hslice hsvc
    have hL : (match strconvAtoi (req.queryGet "limit") with
        | some n => n
        | none => getProductsDefaultLimit)
        = (strconvAtoi (req.queryGet "limit")).getD 20 := by
      cases strconvAtoi (req.queryGet "limit") <;> rfl
    have hO : (match strconvAtoi (req.queryGet "offset") with
        | some n => n
        | none => getProductsDefaultOffset)
        = (strconvAtoi (req.queryGet "offset")).getD 0 := by
      cases strconvAtoi (req.queryGet "offset") <;> rfl
    simp only [Router.getProductsHandler, hL, hO, hsvc, hslice, hloop]
    exact encoded_response StatusOK _ st1 (fun _ => "an error occurred")

/-- C20, evaluated: for a service returning `sampleProduct` and then a product named "B",
the listing holds their two representations in that order. -/
theorem listing_response_mirrors_products_witness :
    appendProductResponses [some sampleProduct, some { sampleProduct with Name := "B" }]
        { Products := none }
      = .returned ⟨some [newProductResponse sampleProduct,
          newProductResponse { sampleProduct with Name := "B" }]⟩ ∧
    ∃ res : productsResponse,
      appendProductResponses ([sampleProduct, { sampleProduct with Name := "B" }].map some)
          { Products := none } = .returned res ∧
      (res.Products.getD []).length
        = [sampleProduct, { sampleProduct with Name := "B" }].length :=
  ⟨rfl, (listing_response_mirrors_products (stubService none none none) sampleLibraries () ()
    blankListRequest [sampleProduct, { sampleProduct with Name := "B" }]).elim
      (fun res h => ⟨res, h.1, h.2.1⟩)⟩

end Http

namespace Http

open App

/-! ## updateProductHandler: the order of the two checks -/

/-- C21: updateProductHandler checks the body before the path id. For every update request
whose body does not decode the response is 400 "invalid request body", whatever the path
id is and without reaching the service; and whenever the response is 400 "invalid product
id", the body of the request did decode (and the path id did not parse). -/
theorem update_body_checked_before_id {ω : Type} (r : Router ω) (libs : Libraries) (st : ω)
    (req : Request) :
    (libs.jsonDecode req.body = none →
      r.updateProductHandler libs newRecorder st req
        = .returned (⟨some 400, "invalid request body\n"⟩, st)) ∧
    (∀ (st1 : ω) (text : String),
      r.updateProductHandler libs newRecorder st req = .returned (⟨some 400, text⟩, st1) →
      text = "invalid product id\n" →
      (∃ body, libs.jsonDecode req.body = some body) ∧
        libs.uuidParse (req.PathValue "product_id") = none) := by
  constructor
  · intro hb
    simp [Router.updateProductHandler, hb, httpError_newRecorder, StatusBadRequest]
  · intro st1 text h htext
    subst htext
    cases hb : libs.jsonDecode req.body with
    | none =>
      simp [Router.updateProductHandler, hb, httpError_newRecorder, StatusBadRequest] at h
    | some body =>
      refine ⟨⟨body, rfl⟩, ?_⟩
      cases hid : libs.uuidParse (req.PathValue "product_id") with
      | none => rfl
      | some id =>
        exfalso
        rcases r with ⟨_ | svc⟩
        · simp [Router.updateProductHandler, hb, hid] at h
        · simp only [Router.updateProductHandler, hb, hid] at h
          cases hsvc : svc.UpdateProduct st ⟨id, body.Name, body.Description, body.Price⟩ with
          | panicked => simp [hsvc] at h
          | returned res =>
            rcases res with ⟨⟨p, _ | e⟩, s1⟩
            · cases p with
              | none => simp [hsvc] at h
              | some p =>
                simp only [hsvc] at h
                obtain ⟨w, hw, hstatus, _⟩ := encoded_response StatusOK
                  (libs.marshalProduct (newProductResponse p)) s1 (fun _ => "an error occurred")
                rw [hw] at h
                injection h with h
                injection h with h
                rw [h] at hstatus
                simp [StatusOK] at hstatus
            · simp [hsvc, httpError_newRecorder, StatusInternalServerError] at h

/-- C21, evaluated with the body `\x7b`: the answer is "invalid request body" with a valid
path id, with an invalid one and with none, and the recording service sees no call. -/
theorem update_body_checked_before_id_witness :
    sampleLibraries.uuidParse sampleIDText = some sampleID ∧
    sampleLibraries.uuidParse "not-a-uuid" = none ∧
    Router.updateProductHandler ⟨some (stubService (some sampleProduct) none none).recording⟩
        sampleLibraries newRecorder ((), [])
        { malformedRequest with pathValues := [("product_id", sampleIDText)] }
      = .returned (⟨some 400, "invalid request body\n"⟩, ((), [])) ∧
    Router.updateProductHandler ⟨some (stubService (some sampleProduct) none none).recording⟩
        sampleLibraries newRecorder ((), [])
        { malformedRequest with pathValues := [("product_id", "not-a-uuid")] }
      = .returned (⟨some 400, "invalid request body\n"⟩, ((), [])) ∧
    Router.updateProductHandler ⟨some (stubService (some sampleProduct) none none).recording⟩
        sampleLibraries newRecorder ((), []) malformedRequest
      = .returned (⟨some 400, "invalid request body\n"⟩, ((), [])) :=
  ⟨by decide, by decide, rfl, rfl,
    (update_body_checked_before_id
      ⟨some (stubService (some sampleProduct) none none).recording⟩ sampleLibraries ((), [])
      malformedRequest).1 (by decide)⟩

end Http
